import Mathlib

/-!
# Verification of the MCP protocol dispatcher of `anx-calibre-manager`

A shallow embedding of `src/blueprints/mcp.py`: the token authentication
gate (`token_required`), the JSON-RPC method router (`mcp_endpoint`), the
tool registry (`TOOLS`), the schema generator (`get_input_schema`) and the
tool-invocation engine, together with the `json.dumps` serializer used for
tool results and a JSON parser used to state the serialization round trip.

Python values reachable in this code (JSON bodies, handler results) are
modelled by the mutual inductive `PyValue`/`PyList`/`PyDict`; dynamic-typing
failures (`TypeError`, `AttributeError`, `KeyError`, ...) are modelled by
`Except PyErr`.  External collaborators (the book-library operations,
imported from other modules and excluded by the spec's scope) are fields of
a `Collab` structure; everything defined in `src/blueprints/mcp.py` itself
is translated directly.
-/

set_option maxRecDepth 4000
set_option linter.unusedVariables false

namespace ACM

/- Python values as they occur in this code: JSON-decoded request bodies and
tool-handler results.  `obj s` stands for a non-JSON-serializable Python
object whose `str()` rendering is `s` (the `default=str` fallback target). -/
mutual
/-- Python value reachable in this code (JSON body members, handler results). -/
inductive PyValue : Type where
  | none : PyValue
  | bool (b : Bool) : PyValue
  | int (n : Int) : PyValue
  | str (s : String) : PyValue
  | list (xs : PyList) : PyValue
  | dict (xs : PyDict) : PyValue
  | obj (s : String) : PyValue

inductive PyList : Type where
  | nil : PyList
  | cons (x : PyValue) (xs : PyList) : PyList

inductive PyDict : Type where
  | nil : PyDict
  | cons (k : String) (v : PyValue) (rest : PyDict) : PyDict
end

/-- Build a `PyList` from a Lean list. -/
def PyList.ofList : List PyValue → PyList
  | [] => .nil
  | x :: xs => .cons x (PyList.ofList xs)

/-- Build a `PyDict` from a Lean association list (keys in insertion order,
as Python 3.7+ dicts preserve insertion order). -/
def PyDict.ofList : List (String × PyValue) → PyDict
  | [] => .nil
  | (k, v) :: xs => .cons k v (PyDict.ofList xs)

/-- Lookup of a key in a dict (first occurrence; Python dicts have unique
keys, so this is the dict lookup). -/
def PyDict.find? : PyDict → String → Option PyValue
  | .nil, _ => Option.none
  | .cons k v rest, s => if k = s then some v else PyDict.find? rest s

/-- Length of a `PyList`. -/
def PyList.length : PyList → Nat
  | .nil => 0
  | .cons _ xs => 1 + PyList.length xs

/-- Keep only the entries whose key satisfies `p` (the dict comprehension
`{k: v for k, v in d.items() if p(k)}`, in iteration order). -/
def PyDict.keep (p : String → Bool) : PyDict → PyDict
  | .nil => .nil
  | .cons k v rest => if p k then .cons k v (PyDict.keep p rest) else PyDict.keep p rest

/-- Keys of a dict, in order (`d.keys()`). -/
def PyDict.keys : PyDict → List String
  | .nil => []
  | .cons k _ rest => k :: PyDict.keys rest

/-- Python truthiness (`bool(v)`). -/
def pyTruthy : PyValue → Bool
  | .none => false
  | .bool b => b
  | .int n => n != 0
  | .str s => s != ""
  | .list .nil => false
  | .list (.cons _ _) => true
  | .dict .nil => false
  | .dict (.cons _ _ _) => true
  | .obj _ => true

/-- Python `is None`. -/
def pyIsNone : PyValue → Bool
  | .none => true
  | _ => false

/- Python `==` on these values.  Booleans compare equal to the integers
0/1 as in Python; lists compare element-wise; dicts compare by key set and
values (order-insensitive, as Python dicts); `obj` values (opaque Python
objects) compare by their identity string, standing in for default
identity-based equality. -/
mutual
/-- Python equality `==` (see the comment above the block). -/
def pyEq : PyValue → PyValue → Bool
  | .none, .none => true
  | .bool a, .bool b => a == b
  | .bool a, .int n => (if a then (1 : Int) else 0) == n
  | .int n, .bool a => n == (if a then (1 : Int) else 0)
  | .int a, .int b => a == b
  | .str a, .str b => a == b
  | .list a, .list b => pyEqList a b
  | .dict a, .dict b => pyEqDict a b
  | .obj a, .obj b => a == b
  | _, _ => false

def pyEqList : PyList → PyList → Bool
  | .nil, .nil => true
  | .cons x xs, .cons y ys => pyEq x y && pyEqList xs ys
  | _, _ => false

def pyEqDict : PyDict → PyDict → Bool
  | .nil, d => d.keys.isEmpty
  | .cons k v rest, d =>
    (match d.find? k with
     | some w => pyEq v w
     | Option.none => false) && pyEqDict rest d
end

/-- Python type name (`type(v).__name__`), used in error messages. -/
def pyTypeName : PyValue → String
  | .none => "NoneType"
  | .bool _ => "bool"
  | .int _ => "int"
  | .str _ => "str"
  | .list _ => "list"
  | .dict _ => "dict"
  | .obj _ => "object"

/-- Hashability: lists and dicts are unhashable in Python; scalars are
hashable.  Opaque objects are treated as hashable (the default for Python
objects; unhashable custom objects cannot arise from a JSON body). -/
def pyHashable : PyValue → Bool
  | .list _ => false
  | .dict _ => false
  | _ => true

/-- A raised Python exception, by the string `str(e)` returns. -/
structure PyErr where
  msg : String

/-- Computations that may raise. -/
abbrev Py (α : Type) := Except PyErr α

def typeErr (m : String) : PyErr := ⟨m⟩

/-- A single-quote character, written via its code point. -/
def squote : String := String.singleton (Char.ofNat 39)

/-- Left/right curly brace strings, written via their code points. -/
def lbrace : String := String.singleton (Char.ofNat 123)

def rbrace : String := String.singleton (Char.ofNat 125)

def quoteName (n : String) : String := squote ++ n ++ squote

def attrErr (tn attr : String) : PyErr :=
  ⟨quoteName tn ++ " object has no attribute " ++ quoteName attr⟩

def keyErr (k : String) : PyErr := ⟨quoteName k⟩

/-- Decimal digit character. -/
def digitChar (n : Nat) : Char := Char.ofNat (48 + n)

/-- Decimal rendering of a natural number (fuel-based so that it is
structurally recursive and kernel-reducible). -/
def natCharsAux : Nat → Nat → List Char
  | 0, _ => []
  | fuel + 1, n => if n < 10 then [digitChar n] else natCharsAux fuel (n / 10) ++ [digitChar (n % 10)]

def natChars (n : Nat) : List Char := natCharsAux (n + 1) n

def natStr (n : Nat) : String := String.mk (natChars n)

/-- Decimal rendering of an integer, as Python prints it. -/
def intChars (i : Int) : List Char :=
  if i < 0 then '-' :: natChars i.natAbs else natChars i.toNat

def intStr (i : Int) : String := String.mk (intChars i)

/-- Escaping used by Python `repr` on strings (modelled with single-quote
delimiters throughout; Python switches delimiters when the string itself
contains a single quote, a case unreachable from the claims). -/
def reprEscChar (c : Char) : List Char :=
  if c = '\\' then ['\\', '\\']
  else if c = Char.ofNat 39 then ['\\', Char.ofNat 39]
  else if c = '\n' then ['\\', 'n']
  else if c = '\r' then ['\\', 'r']
  else if c = '\t' then ['\\', 't']
  else if c.toNat < 32 then
    ['\\', 'x', digitChar (c.toNat / 16), digitChar (c.toNat % 16)]
  else [c]

/- Python `repr`, needed because `str()` of a container is its `repr`. -/
mutual
/-- Python `repr(v)` (see the block comment). -/
def pyRepr : PyValue → String
  | .none => "None"
  | .bool true => "True"
  | .bool false => "False"
  | .int n => intStr n
  | .str s => squote ++ String.mk ((s.data.map reprEscChar).flatten) ++ squote
  | .list xs => "[" ++ pyReprItems xs ++ "]"
  | .dict xs => lbrace ++ pyReprEntries xs ++ rbrace
  | .obj s => s

def pyReprItems : PyList → String
  | .nil => ""
  | .cons x .nil => pyRepr x
  | .cons x (.cons y ys) => pyRepr x ++ ", " ++ pyReprItems (.cons y ys)

def pyReprEntries : PyDict → String
  | .nil => ""
  | .cons k v .nil => pyRepr (.str k) ++ ": " ++ pyRepr v
  | .cons k v (.cons k2 v2 r) =>
    pyRepr (.str k) ++ ": " ++ pyRepr v ++ ", " ++ pyReprEntries (.cons k2 v2 r)
end

/-- Python `str(v)` (`f"{v}"`): identity on strings, `repr` on containers. -/
def pyStr : PyValue → String
  | .str s => s
  | .obj s => s
  | v => pyRepr v

/-- Does `sub` occur in `l` (Python substring test)? -/
def containsSubAux (sub : List Char) : List Char → Bool
  | [] => sub.isEmpty
  | c :: rest => List.isPrefixOf sub (c :: rest) || containsSubAux sub rest

def strContainsSub (s sub : String) : Bool := containsSubAux sub.data s.data

def PyList.toList : PyList → List PyValue
  | .nil => []
  | .cons x xs => x :: PyList.toList xs

/-- Python membership on a list (`x in xs`): element-wise `==`. -/
def pyListContains (xs : PyList) (x : PyValue) : Bool :=
  (PyList.toList xs).any (pyEq x)

/-- Python membership on a dict (`x in d`): key containment. -/
def pyDictContains (d : PyDict) (x : PyValue) : Bool :=
  d.keys.any (fun k => pyEq x (.str k))

/-- Python `x in v`.  Raises `TypeError` on non-iterable containers and on
unhashable needles for dict membership, exactly as CPython does. -/
def pyContains (container needle : PyValue) : Py Bool :=
  match container with
  | .str s =>
    match needle with
    | .str sub => .ok (strContainsSub s sub)
    | _ => .error (typeErr
        (squote ++ "in <string>" ++ squote ++
          " requires string as left operand, not " ++ pyTypeName needle))
  | .list xs => .ok (pyListContains xs needle)
  | .dict d =>
    if pyHashable needle then .ok (pyDictContains d needle)
    else .error (typeErr ("unhashable type: " ++ quoteName (pyTypeName needle)))
  | v => .error (typeErr
      ("argument of type " ++ quoteName (pyTypeName v) ++ " is not iterable"))

/-- View a value as an integer for arithmetic/comparison (`bool` is an
`int` subtype in Python). -/
def asIntArith : PyValue → Option Int
  | .int n => some n
  | .bool b => some (if b then 1 else 0)
  | _ => Option.none

/-- Python `v[key]`. -/
def pyGetItem (v key : PyValue) : Py PyValue :=
  match v with
  | .dict d =>
    match key with
    | .str s =>
      match d.find? s with
      | some w => .ok w
      | Option.none => .error (keyErr s)
    | _ =>
      if pyHashable key then .error ⟨pyRepr key⟩
      else .error (typeErr ("unhashable type: " ++ quoteName (pyTypeName key)))
  | .list xs =>
    match asIntArith key with
    | some n =>
      let l := PyList.toList xs
      let idx : Int := if n < 0 then n + l.length else n
      match l.get? idx.toNat with
      | some w => if idx < 0 then .error ⟨"list index out of range"⟩ else .ok w
      | Option.none => .error ⟨"list index out of range"⟩
    | Option.none => .error (typeErr
        ("list indices must be integers or slices, not " ++ pyTypeName key))
  | .str s =>
    match asIntArith key with
    | some n =>
      let l := s.data
      let idx : Int := if n < 0 then n + l.length else n
      match l.get? idx.toNat with
      | some c => if idx < 0 then .error ⟨"string index out of range"⟩
                  else .ok (.str (String.singleton c))
      | Option.none => .error ⟨"string index out of range"⟩
    | Option.none => .error (typeErr "string indices must be integers")
  | w => .error (typeErr (quoteName (pyTypeName w) ++ " object is not subscriptable"))

/-- Python `v.get(key, default)` — only mappings have `.get`. -/
def pyDotGetD (v : PyValue) (key : String) (default : PyValue) : Py PyValue :=
  match v with
  | .dict d => .ok ((d.find? key).getD default)
  | w => .error (attrErr (pyTypeName w) "get")

/-- Python `v.items()` as used in the argument-filtering comprehension —
only mappings have `.items`. -/
def pyDotItems (v : PyValue) : Py PyDict :=
  match v with
  | .dict d => .ok d
  | w => .error (attrErr (pyTypeName w) "items")

/-- Python `dict(v)` on a mapping (SQLite rows are modelled as dicts). -/
def pyDictify (v : PyValue) : Py PyValue :=
  match v with
  | .dict d => .ok (.dict d)
  | w => .error (typeErr (quoteName (pyTypeName w) ++ " object is not iterable"))

/-- Python `a += b` on values (used for `total_word_count += word_count`). -/
def pyAddAug (a b : PyValue) : Py PyValue :=
  match asIntArith a, asIntArith b with
  | some x, some y => .ok (.int (x + y))
  | _, _ => .error (typeErr
      ("unsupported operand type(s) for +=: " ++ quoteName (pyTypeName a) ++
       " and " ++ quoteName (pyTypeName b)))

/-- Python chained comparison `lo <= v <= hi` (raises `TypeError` when `v`
is not number-like, as `int <= str` does). -/
def pyChainLe (lo : Int) (v : PyValue) (hi : Int) : Py Bool :=
  match asIntArith v with
  | some n => .ok (decide (lo ≤ n) && decide (n ≤ hi))
  | Option.none => .error (typeErr
      (quoteName "<=" ++ " not supported between instances of " ++ quoteName "int" ++
        " and " ++ quoteName (pyTypeName v)))

/-- Python slice `v[:lim]` (`None` stop means the whole list). -/
def pySliceTo (v lim : PyValue) : Py PyValue :=
  match v with
  | .list xs =>
    match lim with
    | .none => .ok (.list xs)
    | _ =>
      match asIntArith lim with
      | some n =>
        let l := PyList.toList xs
        let stop : Nat := if n < 0 then l.length - (-n).toNat else n.toNat
        .ok (.list (PyList.ofList (l.take stop)))
      | Option.none => .error (typeErr
          "slice indices must be integers or None or have an __index__ method")
  | w => .error (typeErr (quoteName (pyTypeName w) ++ " object is not subscriptable"))

/-- Characters before the first `'T'` — models `s.split('T')[0]`. -/
def takeBeforeT : List Char → List Char
  | [] => []
  | c :: rest => if c = 'T' then [] else c :: takeBeforeT rest

/-- Python `v.split('T')[0]` — only strings have `.split`. -/
def pySplitT0 (v : PyValue) : Py PyValue :=
  match v with
  | .str s => .ok (.str (String.mk (takeBeforeT s.data)))
  | w => .error (attrErr (pyTypeName w) "split")

/-- Python whitespace characters recognised by `str.strip()` (ASCII part). -/
def isPySpace (c : Char) : Bool :=
  c = ' ' || c = '\t' || c = '\n' || c = '\r' || c = Char.ofNat 11 || c = Char.ofNat 12

/-- Python `s.strip()`. -/
def pyStrip (s : String) : String :=
  String.mk (((s.data.dropWhile isPySpace).reverse.dropWhile isPySpace).reverse)

/-- Name list in a CPython "missing required positional arguments" message. -/
def joinNamesTail : List String → String
  | [] => ""
  | [x] => ", and " ++ quoteName x
  | x :: xs => ", " ++ quoteName x ++ joinNamesTail xs

def joinNames : List String → String
  | [] => ""
  | [x] => quoteName x
  | [x, y] => quoteName x ++ " and " ++ quoteName y
  | x :: xs => quoteName x ++ joinNamesTail xs

/-- Required parameter names that are absent from the supplied keyword
arguments, in signature order. -/
def missingNames (args : PyDict) : List String → List String
  | [] => []
  | n :: rest =>
    if (args.find? n).isSome then missingNames args rest else n :: missingNames args rest

/-- CPython keyword-binding check: calling `fname(**args)` with required
positional parameters `required` raises `TypeError` when any is missing. -/
def checkRequired (fname : String) (required : List String) (args : PyDict) : Py Unit :=
  match missingNames args required with
  | [] => .ok ()
  | ms => .error (typeErr
      (fname ++ "() missing " ++ natStr ms.length ++ " required positional argument" ++
       (if ms.length == 1 then "" else "s") ++ ": " ++ joinNames ms))

/-! ## The serializer: `json.dumps(result, indent=2, ensure_ascii=False, default=str)`

`mcp.py` line 506 turns every tool result into text with exactly these
options: two-space pretty printing, non-ASCII characters kept verbatim,
and non-serializable objects rendered through `str`. -/

def lbraceC : Char := Char.ofNat 123

def rbraceC : Char := Char.ofNat 125

/-- Lower-case hexadecimal digit, as `json.dumps` emits in `\uXXXX`. -/
def hexDigit (n : Nat) : Char :=
  if n < 10 then digitChar n else Char.ofNat (97 + (n - 10))

/-- Escaping of one character inside a JSON string, per CPython's
`json.encoder` with `ensure_ascii=False`: only `"`, `\` and control
characters are escaped. -/
def escChar (c : Char) : List Char :=
  if c = '"' then ['\\', '"']
  else if c = '\\' then ['\\', '\\']
  else if c = '\n' then ['\\', 'n']
  else if c = '\r' then ['\\', 'r']
  else if c = '\t' then ['\\', 't']
  else if c = Char.ofNat 8 then ['\\', 'b']
  else if c = Char.ofNat 12 then ['\\', 'f']
  else if c.toNat < 32 then
    ['\\', 'u', '0', '0', hexDigit (c.toNat / 16), hexDigit (c.toNat % 16)]
  else [c]

def encStrChars (cs : List Char) : List Char := (cs.map escChar).flatten

/-- A JSON string literal for `s`. -/
def encStr (s : String) : List Char := '"' :: (encStrChars s.data ++ ['"'])

/-- `n` spaces of indentation. -/
def indentC (n : Nat) : List Char := List.replicate n ' '

/- The pretty printer: `dumpV ind v` is `json.dumps(v, indent=2, ...)`
rendered with the closing bracket at indentation `ind`.  With `indent`
set, CPython separates items with `",\n" + indent` and keys from values
with `": "`. -/
mutual
/-- Pretty-printed JSON of one value (see the block comment). -/
def dumpV : Nat → PyValue → List Char
  | _, .none => "null".data
  | _, .bool true => "true".data
  | _, .bool false => "false".data
  | _, .int n => intChars n
  | _, .str s => encStr s
  | _, .obj s => encStr s
  | _, .list .nil => "[]".data
  | ind, .list (.cons x xs) =>
    '[' :: '\n' :: (indentC (ind + 2) ++ dumpV (ind + 2) x ++ dumpLRest (ind + 2) xs ++
      '\n' :: (indentC ind ++ [']']))
  | _, .dict .nil => [lbraceC, rbraceC]
  | ind, .dict (.cons k v r) =>
    lbraceC :: '\n' :: (indentC (ind + 2) ++
      (encStr k ++ ':' :: ' ' :: dumpV (ind + 2) v) ++ dumpDRest (ind + 2) r ++
      '\n' :: (indentC ind ++ [rbraceC]))

/-- Each further item of a list: `",\n" ++ indent ++ item`. -/
def dumpLRest : Nat → PyList → List Char
  | _, .nil => []
  | ind, .cons y ys =>
    ',' :: '\n' :: (indentC ind ++ dumpV ind y ++ dumpLRest ind ys)

/-- Each further entry of a dict: `",\n" ++ indent ++ key ++ ": " ++ value`. -/
def dumpDRest : Nat → PyDict → List Char
  | _, .nil => []
  | ind, .cons k v r =>
    ',' :: '\n' :: (indentC ind ++ (encStr k ++ ':' :: ' ' :: dumpV ind v) ++ dumpDRest ind r)
end

/-- `json.dumps(v, indent=2, ensure_ascii=False, default=str)`. -/
def dumps (v : PyValue) : String := String.mk (dumpV 0 v)

/-! ## A JSON parser, used to state the serialization round trip -/

def isWsC (c : Char) : Bool := c = ' ' || c = '\n' || c = '\t' || c = '\r'

def skipWs : List Char → List Char
  | [] => []
  | c :: rest => if isWsC c then skipWs rest else c :: rest

def isDigitC (c : Char) : Bool := 48 ≤ c.toNat && c.toNat ≤ 57

/-- Consume a run of decimal digits, accumulating their value. -/
def parseDigits : List Char → Nat → Nat × List Char
  | [], acc => (acc, [])
  | c :: rest, acc =>
    if isDigitC c then parseDigits rest (acc * 10 + (c.toNat - 48)) else (acc, c :: rest)

/-- Decode one backslash escape (other than `\uXXXX`). -/
def unescape (c : Char) : Option Char :=
  if c = '"' then some '"'
  else if c = '\\' then some '\\'
  else if c = '/' then some '/'
  else if c = 'n' then some '\n'
  else if c = 't' then some '\t'
  else if c = 'r' then some '\r'
  else if c = 'b' then some (Char.ofNat 8)
  else if c = 'f' then some (Char.ofNat 12)
  else Option.none

def hexVal (c : Char) : Option Nat :=
  if 48 ≤ c.toNat && c.toNat ≤ 57 then some (c.toNat - 48)
  else if 97 ≤ c.toNat && c.toNat ≤ 102 then some (c.toNat - 87)
  else if 65 ≤ c.toNat && c.toNat ≤ 70 then some (c.toNat - 55)
  else Option.none

/-- Parse the body of a JSON string up to and including the closing quote. -/
def parseStrBody : List Char → Option (List Char × List Char)
  | [] => Option.none
  | c :: rest =>
    if c = '"' then some ([], rest)
    else if c = '\\' then
      match rest with
      | [] => Option.none
      | e :: rest2 =>
        if e = 'u' then
          match rest2 with
          | a :: b :: c2 :: d :: rest3 => do
            let ha ← hexVal a
            let hb ← hexVal b
            let hc ← hexVal c2
            let hd ← hexVal d
            let (cs, r) ← parseStrBody rest3
            some (Char.ofNat (((ha * 16 + hb) * 16 + hc) * 16 + hd) :: cs, r)
          | _ => Option.none
        else do
          let ce ← unescape e
          let (cs, r) ← parseStrBody rest2
          some (ce :: cs, r)
    else if c.toNat < 32 then Option.none
    else do
      let (cs, r) ← parseStrBody rest
      some (c :: cs, r)

/- Fuel-indexed JSON value/items/entries parsing (the fuel only bounds
nesting-and-sequence length; `parseJson` supplies `length + 1`). -/
mutual
/-- Parse one JSON value after optional whitespace. -/
def parseVal : Nat → List Char → Option (PyValue × List Char)
  | 0, _ => Option.none
  | fuel + 1, l =>
    match skipWs l with
    | [] => Option.none
    | c :: rest =>
      if c = 'n' then
        match rest with
        | 'u' :: 'l' :: 'l' :: r => some (.none, r)
        | _ => Option.none
      else if c = 't' then
        match rest with
        | 'r' :: 'u' :: 'e' :: r => some (.bool true, r)
        | _ => Option.none
      else if c = 'f' then
        match rest with
        | 'a' :: 'l' :: 's' :: 'e' :: r => some (.bool false, r)
        | _ => Option.none
      else if c = '"' then do
        let (cs, r) ← parseStrBody rest
        some (.str (String.mk cs), r)
      else if c = '[' then
        match skipWs rest with
        | [] => Option.none
        | c2 :: r2 =>
          if c2 = ']' then some (.list .nil, r2)
          else do
            let (xs, r) ← parseItems fuel (c2 :: r2)
            some (.list xs, r)
      else if c = lbraceC then
        match skipWs rest with
        | [] => Option.none
        | c2 :: r2 =>
          if c2 = rbraceC then some (.dict .nil, r2)
          else do
            let (d, r) ← parseEntries fuel (c2 :: r2)
            some (.dict d, r)
      else if c = '-' then
        match rest with
        | [] => Option.none
        | d :: _ =>
          if isDigitC d then
            some (match parseDigits rest 0 with
                  | (n, r) => (.int (-(n : Int)), r))
          else Option.none
      else if isDigitC c then
        some (match parseDigits (c :: rest) 0 with
              | (n, r) => (.int (n : Int), r))
      else Option.none

/-- Parse the items of a nonempty JSON array up to and including `]`. -/
def parseItems : Nat → List Char → Option (PyList × List Char)
  | 0, _ => Option.none
  | fuel + 1, l => do
    let (v, r) ← parseVal fuel l
    match skipWs r with
    | [] => Option.none
    | c :: r2 =>
      if c = ',' then do
        let (xs, r3) ← parseItems fuel r2
        some (.cons v xs, r3)
      else if c = ']' then some (.cons v .nil, r2)
      else Option.none

/-- Parse the entries of a nonempty JSON object up to and including the
closing brace. -/
def parseEntries : Nat → List Char → Option (PyDict × List Char)
  | 0, _ => Option.none
  | fuel + 1, l =>
    match skipWs l with
    | [] => Option.none
    | c :: rest =>
      if c = '"' then do
        let (ks, r) ← parseStrBody rest
        match skipWs r with
        | [] => Option.none
        | c2 :: r2 =>
          if c2 = ':' then do
            let (v, r3) ← parseVal fuel r2
            match skipWs r3 with
            | [] => Option.none
            | c3 :: r4 =>
              if c3 = ',' then do
                let (d, r5) ← parseEntries fuel r4
                some (.cons (String.mk ks) v d, r5)
              else if c3 = rbraceC then some (.cons (String.mk ks) v .nil, r4)
              else Option.none
          else Option.none
      else Option.none
end

/-- Parse a complete JSON document (must consume all input). -/
def parseJson (s : String) : Option PyValue := do
  let (v, r) ← parseVal (s.data.length + 1) s.data
  match skipWs r with
  | [] => some v
  | _ => Option.none

/- A value is representable when it contains no `obj` (non-serializable)
component: exactly the values `json.dumps` renders structurally rather
than through the `default=str` fallback. -/
mutual
/-- No `default=str` fallback needed anywhere inside the value. -/
def representable : PyValue → Bool
  | .obj _ => false
  | .list xs => representableL xs
  | .dict d => representableD d
  | _ => true

def representableL : PyList → Bool
  | .nil => true
  | .cons x xs => representable x && representableL xs

def representableD : PyDict → Bool
  | .nil => true
  | .cons _ v r => representable v && representableD r
end

/-! ## Round-trip lemmas: the parser inverts the serializer -/

theorem skipWs_append_ws (pre l : List Char) (h : pre.all isWsC = true) :
    skipWs (pre ++ l) = skipWs l := by
  induction pre with
  | nil => rfl
  | cons c cs ih =>
    simp only [List.all_cons, Bool.and_eq_true] at h
    simp [skipWs, h.1, ih h.2]

theorem skipWs_cons_not_ws (c : Char) (l : List Char) (h : isWsC c = false) :
    skipWs (c :: l) = c :: l := by
  simp [skipWs, h]

theorem toNat_ofNat_valid (n : Nat) (h : n < 55296) : (Char.ofNat n).toNat = n := by
  have hv : n.isValidChar := Or.inl (by omega)
  simp only [Char.ofNat, hv, reduceDIte, Char.toNat]
  simp [Char.ofNatAux, UInt32.toNat, UInt32.ofNatCore]

theorem toNat_digitChar (n : Nat) (h : n < 10) : (digitChar n).toNat = 48 + n := by
  unfold digitChar
  exact toNat_ofNat_valid (48 + n) (by omega)

theorem isDigitC_digitChar (n : Nat) (h : n < 10) : isDigitC (digitChar n) = true := by
  simp [isDigitC, toNat_digitChar n h]
  omega

theorem not_ws_of_digit (c : Char) (h : isDigitC c = true) : isWsC c = false := by
  simp only [isDigitC, Bool.and_eq_true, decide_eq_true_eq] at h
  simp only [isWsC, Bool.or_eq_false_iff, decide_eq_false_iff_not]
  refine ⟨⟨⟨?_, ?_⟩, ?_⟩, ?_⟩ <;> intro hc <;> subst hc <;> simp_all

def noDigitHead : List Char → Bool
  | [] => true
  | c :: _ => !(isDigitC c)

def digitsStep (a : Nat) (c : Char) : Nat := a * 10 + (c.toNat - 48)

theorem parseDigits_append (ds rest : List Char) (acc : Nat)
    (hd : ds.all isDigitC = true) (hr : noDigitHead rest = true) :
    parseDigits (ds ++ rest) acc = (ds.foldl digitsStep acc, rest) := by
  induction ds generalizing acc with
  | nil =>
    cases rest with
    | nil => rfl
    | cons c t =>
      simp only [noDigitHead, Bool.not_eq_true'] at hr
      simp [parseDigits, hr]
  | cons c cs ih =>
    simp only [List.all_cons, Bool.and_eq_true] at hd
    simp [parseDigits, hd.1, ih _ hd.2, digitsStep]

theorem natCharsAux_all_digits (fuel n : Nat) (h : n < fuel) :
    (natCharsAux fuel n).all isDigitC = true := by
  induction fuel generalizing n with
  | zero => omega
  | succ f ih =>
    by_cases h10 : n < 10
    · simp [natCharsAux, h10, isDigitC_digitChar n h10]
    · have hf : n / 10 < f := by omega
      simp [natCharsAux, h10, List.all_append, ih _ hf,
        isDigitC_digitChar (n % 10) (by omega)]

theorem foldl_natCharsAux (fuel n acc : Nat) (h : n < fuel) :
    (natCharsAux fuel n).foldl digitsStep acc =
      acc * 10 ^ (natCharsAux fuel n).length + n := by
  induction fuel generalizing n acc with
  | zero => omega
  | succ f ih =>
    by_cases h10 : n < 10
    · simp [natCharsAux, h10, digitsStep, toNat_digitChar n h10]
    · have hf : n / 10 < f := by omega
      simp only [natCharsAux, h10, if_false, List.foldl_append, List.length_append,
        List.foldl_cons, List.foldl_nil, List.length_cons, List.length_nil]
      rw [ih _ _ hf]
      simp only [digitsStep, toNat_digitChar (n % 10) (by omega)]
      have hpow : (10 : Nat) ^ ((natCharsAux f (n / 10)).length + (0 + 1)) =
          10 ^ (natCharsAux f (n / 10)).length * 10 := by
        rw [Nat.zero_add, Nat.pow_succ]
      rw [hpow]
      generalize (10 : Nat) ^ (natCharsAux f (n / 10)).length = P
      have := Nat.div_add_mod n 10
      ring_nf
      omega

theorem parseDigits_natChars (n : Nat) (rest : List Char) (hr : noDigitHead rest = true) :
    parseDigits (natChars n ++ rest) 0 = (n, rest) := by
  unfold natChars
  rw [parseDigits_append _ _ _ (natCharsAux_all_digits _ _ (by omega)) hr,
    foldl_natCharsAux _ _ _ (by omega)]
  simp

theorem natCharsAux_head (fuel n : Nat) (h : n < fuel) :
    ∃ c t, natCharsAux fuel n = c :: t ∧ isDigitC c = true := by
  induction fuel generalizing n with
  | zero => omega
  | succ f ih =>
    by_cases h10 : n < 10
    · exact ⟨digitChar n, [], by simp [natCharsAux, h10], isDigitC_digitChar n h10⟩
    · have hf : n / 10 < f := by omega
      obtain ⟨c, t, hc, hdig⟩ := ih _ hf
      exact ⟨c, t ++ [digitChar (n % 10)], by simp [natCharsAux, h10, hc], hdig⟩

theorem natChars_head (n : Nat) :
    ∃ c t, natChars n = c :: t ∧ isDigitC c = true :=
  natCharsAux_head _ _ (by omega)

theorem hexVal_hexDigit (n : Nat) (h : n < 16) : hexVal (hexDigit n) = some n := by
  interval_cases n <;> rfl

theorem psb_quote (l : List Char) : parseStrBody ('"' :: l) = some ([], l) := by
  conv_lhs => rw [parseStrBody.eq_def]
  simp

theorem psb_esc (e ce : Char) (l : List Char) (he : unescape e = some ce) (hu : e ≠ 'u') :
    parseStrBody ('\\' :: e :: l) =
      (parseStrBody l).bind (fun p => some (ce :: p.1, p.2)) := by
  conv_lhs => rw [parseStrBody.eq_def]
  simp [hu, he]

theorem psb_u (a b c2 d : Char) (l : List Char) (ha hb hc hd : Nat)
    (h1 : hexVal a = some ha) (h2 : hexVal b = some hb)
    (h3 : hexVal c2 = some hc) (h4 : hexVal d = some hd) :
    parseStrBody ('\\' :: 'u' :: a :: b :: c2 :: d :: l) =
      (parseStrBody l).bind
        (fun p => some (Char.ofNat (((ha * 16 + hb) * 16 + hc) * 16 + hd) :: p.1, p.2)) := by
  conv_lhs => rw [parseStrBody.eq_def]
  simp [h1, h2, h3, h4]

theorem psb_plain (c : Char) (l : List Char) (h1 : c ≠ '"') (h2 : c ≠ '\\')
    (h3 : ¬ c.toNat < 32) :
    parseStrBody (c :: l) = (parseStrBody l).bind (fun p => some (c :: p.1, p.2)) := by
  conv_lhs => rw [parseStrBody.eq_def]
  simp [h1, h2, h3]

theorem parseStrBody_enc (cs rest : List Char) :
    parseStrBody (encStrChars cs ++ '"' :: rest) = some (cs, rest) := by
  induction cs with
  | nil =>
    show parseStrBody (([] : List Char) ++ '"' :: rest) = _
    rw [List.nil_append, psb_quote]
  | cons c cs ih =>
    have hstep : encStrChars (c :: cs) = escChar c ++ encStrChars cs := by
      simp [encStrChars]
    rw [hstep, List.append_assoc]
    by_cases h1 : c = '"'
    · subst h1
      rw [show escChar '"' = ['\\', '"'] from rfl]
      simp only [List.cons_append, List.nil_append]
      rw [psb_esc '"' '"' _ rfl (by decide), ih]; rfl
    · by_cases h2 : c = '\\'
      · subst h2
        rw [show escChar '\\' = ['\\', '\\'] from rfl]
        simp only [List.cons_append, List.nil_append]
        rw [psb_esc '\\' '\\' _ rfl (by decide), ih]; rfl
      · by_cases h3 : c = '\n'
        · subst h3
          rw [show escChar '\n' = ['\\', 'n'] from rfl]
          simp only [List.cons_append, List.nil_append]
          rw [psb_esc 'n' '\n' _ rfl (by decide), ih]; rfl
        · by_cases h4 : c = '\r'
          · subst h4
            rw [show escChar '\r' = ['\\', 'r'] from rfl]
            simp only [List.cons_append, List.nil_append]
            rw [psb_esc 'r' '\r' _ rfl (by decide), ih]; rfl
          · by_cases h5 : c = '\t'
            · subst h5
              rw [show escChar '\t' = ['\\', 't'] from rfl]
              simp only [List.cons_append, List.nil_append]
              rw [psb_esc 't' '\t' _ rfl (by decide), ih]; rfl
            · by_cases h6 : c = Char.ofNat 8
              · subst h6
                rw [show escChar (Char.ofNat 8) = ['\\', 'b'] from rfl]
                simp only [List.cons_append, List.nil_append]
                rw [psb_esc 'b' (Char.ofNat 8) _ rfl (by decide), ih]; rfl
              · by_cases h7 : c = Char.ofNat 12
                · subst h7
                  rw [show escChar (Char.ofNat 12) = ['\\', 'f'] from rfl]
                  simp only [List.cons_append, List.nil_append]
                  rw [psb_esc 'f' (Char.ofNat 12) _ rfl (by decide), ih]; rfl
                · by_cases h8 : c.toNat < 32
                  · have hesc : escChar c =
                        ['\\', 'u', '0', '0', hexDigit (c.toNat / 16), hexDigit (c.toNat % 16)] := by
                      simp [escChar, h1, h2, h3, h4, h5, h6, h7, h8]
                    rw [hesc]
                    simp only [List.cons_append, List.nil_append]
                    rw [psb_u '0' '0' _ _ _ 0 0 (c.toNat / 16) (c.toNat % 16) rfl rfl
                      (hexVal_hexDigit _ (by omega)) (hexVal_hexDigit _ (by omega)), ih]
                    have hv : (((0 * 16 + 0) * 16 + c.toNat / 16) * 16 + c.toNat % 16) = c.toNat := by
                      omega
                    rw [hv, Char.ofNat_toNat]
                    rfl
                  · have hesc : escChar c = [c] := by
                      simp [escChar, h1, h2, h3, h4, h5, h6, h7, h8]
                    rw [hesc]
                    simp only [List.cons_append, List.nil_append]
                    rw [psb_plain c _ h1 h2 h8, ih]; rfl


/- Weight: an upper bound on the parser fuel consumed by one value. -/
mutual
/-- Fuel bound for parsing one value (see the block comment). -/
def weight : PyValue → Nat
  | .list xs => 1 + weightL xs
  | .dict d => 1 + weightD d
  | _ => 1

def weightL : PyList → Nat
  | .nil => 0
  | .cons x xs => 1 + weight x + weightL xs

def weightD : PyDict → Nat
  | .nil => 0
  | .cons _ v r => 1 + weight v + weightD r
end

theorem weight_pos (v : PyValue) : 1 ≤ weight v := by
  cases v <;> simp [weight]

theorem skipWs_idem (l : List Char) : skipWs (skipWs l) = skipWs l := by
  induction l with
  | nil => rfl
  | cons c t ih =>
    by_cases h : isWsC c = true
    · simp [skipWs, h, ih]
    · simp only [Bool.not_eq_true] at h
      simp [skipWs, h]

theorem indentC_all_ws (n : Nat) : (indentC n).all isWsC = true := by
  induction n with
  | zero => rfl
  | succ m ih => simp [indentC, List.replicate_succ, List.all_cons, isWsC]

theorem digit_facts (c : Char) (h : isDigitC c = true) :
    c ≠ 'n' ∧ c ≠ 't' ∧ c ≠ 'f' ∧ c ≠ '"' ∧ c ≠ '[' ∧ c ≠ lbraceC ∧ c ≠ '-' ∧
    c ≠ ']' ∧ c ≠ rbraceC ∧ c ≠ ',' ∧ c ≠ ':' := by
  refine ⟨?_, ?_, ?_, ?_, ?_, ?_, ?_, ?_, ?_, ?_, ?_⟩ <;>
    (intro hc; subst hc; exact absurd h (by decide))

theorem dumpV_head (ind : Nat) (v : PyValue) :
    ∃ c t, dumpV ind v = c :: t ∧ isWsC c = false ∧ c ≠ ']' := by
  cases v with
  | none => exact ⟨'n', _, rfl, by decide, by decide⟩
  | bool b => cases b with
    | true => exact ⟨'t', _, rfl, by decide, by decide⟩
    | false => exact ⟨'f', _, rfl, by decide, by decide⟩
  | int n =>
    show ∃ c t, intChars n = c :: t ∧ _
    unfold intChars
    by_cases hn : n < 0
    · refine ⟨'-', natChars n.natAbs, ?_, by decide, by decide⟩
      simp [hn]
    · obtain ⟨c, t, hct, hdig⟩ := natChars_head n.toNat
      exact ⟨c, t, by simp [hn, hct], not_ws_of_digit c hdig, (digit_facts c hdig).2.2.2.2.2.2.2.1⟩
  | str s => exact ⟨'"', _, rfl, by decide, by decide⟩
  | obj s => exact ⟨'"', _, rfl, by decide, by decide⟩
  | list xs => cases xs with
    | nil => exact ⟨'[', _, rfl, by decide, by decide⟩
    | cons x t => exact ⟨'[', _, rfl, by decide, by decide⟩
  | dict d => cases d with
    | nil => exact ⟨lbraceC, _, rfl, by decide, by decide⟩
    | cons k v r => exact ⟨lbraceC, _, rfl, by decide, by decide⟩

theorem skipWs_pre (pre l : List Char) (c : Char) (t : List Char)
    (hpre : pre.all isWsC = true) (hl : l = c :: t) (hc : isWsC c = false) :
    skipWs (pre ++ l) = c :: t := by
  rw [skipWs_append_ws pre l hpre, hl, skipWs_cons_not_ws c t hc]

theorem pv_null (fuel : Nat) (l r : List Char)
    (h : skipWs l = 'n' :: 'u' :: 'l' :: 'l' :: r) :
    parseVal (fuel + 1) l = some (.none, r) := by
  conv_lhs => rw [parseVal.eq_def]
  simp [h]

theorem pv_true (fuel : Nat) (l r : List Char)
    (h : skipWs l = 't' :: 'r' :: 'u' :: 'e' :: r) :
    parseVal (fuel + 1) l = some (.bool true, r) := by
  conv_lhs => rw [parseVal.eq_def]
  simp [h]

theorem pv_false (fuel : Nat) (l r : List Char)
    (h : skipWs l = 'f' :: 'a' :: 'l' :: 's' :: 'e' :: r) :
    parseVal (fuel + 1) l = some (.bool false, r) := by
  conv_lhs => rw [parseVal.eq_def]
  simp [h]

theorem pv_str (fuel : Nat) (l body : List Char) (h : skipWs l = '"' :: body) :
    parseVal (fuel + 1) l =
      (parseStrBody body).bind (fun p => some (.str (String.mk p.1), p.2)) := by
  conv_lhs => rw [parseVal.eq_def]
  simp [h]

theorem pv_list_empty (fuel : Nat) (l l2 r : List Char)
    (h : skipWs l = '[' :: l2) (h2 : skipWs l2 = ']' :: r) :
    parseVal (fuel + 1) l = some (.list .nil, r) := by
  conv_lhs => rw [parseVal.eq_def]
  simp [h, h2]

theorem pv_list_items (fuel : Nat) (l l2 r2 : List Char) (c2 : Char)
    (h : skipWs l = '[' :: l2) (h2 : skipWs l2 = c2 :: r2) (hne : c2 ≠ ']') :
    parseVal (fuel + 1) l =
      (parseItems fuel (c2 :: r2)).bind (fun p => some (.list p.1, p.2)) := by
  conv_lhs => rw [parseVal.eq_def]
  simp [h, h2, hne]

theorem pv_dict_empty (fuel : Nat) (l l2 r : List Char)
    (h : skipWs l = lbraceC :: l2) (h2 : skipWs l2 = rbraceC :: r) :
    parseVal (fuel + 1) l = some (.dict .nil, r) := by
  conv_lhs => rw [parseVal.eq_def]
  simp [h, h2,
    show (lbraceC = 'n') = False from by simp [lbraceC],
    show (lbraceC = 't') = False from by simp [lbraceC],
    show (lbraceC = 'f') = False from by simp [lbraceC],
    show (lbraceC = '"') = False from by simp [lbraceC],
    show (lbraceC = '[') = False from by simp [lbraceC]]

theorem pv_dict_entries (fuel : Nat) (l l2 r2 : List Char) (c2 : Char)
    (h : skipWs l = lbraceC :: l2) (h2 : skipWs l2 = c2 :: r2) (hne : c2 ≠ rbraceC) :
    parseVal (fuel + 1) l =
      (parseEntries fuel (c2 :: r2)).bind (fun p => some (.dict p.1, p.2)) := by
  conv_lhs => rw [parseVal.eq_def]
  simp [h, h2, hne,
    show (lbraceC = 'n') = False from by simp [lbraceC],
    show (lbraceC = 't') = False from by simp [lbraceC],
    show (lbraceC = 'f') = False from by simp [lbraceC],
    show (lbraceC = '"') = False from by simp [lbraceC],
    show (lbraceC = '[') = False from by simp [lbraceC]]

theorem pv_digit (fuel : Nat) (l l2 : List Char) (c : Char)
    (h : skipWs l = c :: l2) (hd : isDigitC c = true) :
    parseVal (fuel + 1) l =
      some (match parseDigits (c :: l2) 0 with
            | (n, r) => (.int (n : Int), r)) := by
  obtain ⟨f1, f2, f3, f4, f5, f6, f7, _, _, _, _⟩ := digit_facts c hd
  conv_lhs => rw [parseVal.eq_def]
  simp [h, f1, f2, f3, f4, f5, f6, f7, hd]

theorem pv_neg (fuel : Nat) (l l2 : List Char) (d : Char)
    (h : skipWs l = '-' :: d :: l2) (hd : isDigitC d = true) :
    parseVal (fuel + 1) l =
      some (match parseDigits (d :: l2) 0 with
            | (n, r) => (.int (-(n : Int)), r)) := by
  conv_lhs => rw [parseVal.eq_def]
  simp [h, hd, show (('-' : Char) = lbraceC) = False from by simp [lbraceC],
    show isDigitC '-' = false from by decide]

theorem pi_cons (fuel : Nat) (l r r2 : List Char) (v : PyValue)
    (h1 : parseVal fuel l = some (v, r)) (h2 : skipWs r = ',' :: r2) :
    parseItems (fuel + 1) l =
      (parseItems fuel r2).bind (fun p => some (.cons v p.1, p.2)) := by
  conv_lhs => rw [parseItems.eq_def]
  simp [h1, h2]

theorem pi_last (fuel : Nat) (l r r2 : List Char) (v : PyValue)
    (h1 : parseVal fuel l = some (v, r)) (h2 : skipWs r = ']' :: r2) :
    parseItems (fuel + 1) l = some (.cons v .nil, r2) := by
  conv_lhs => rw [parseItems.eq_def]
  simp [h1, h2]

theorem pe_cons (fuel : Nat) (l lr r2 r3 r4 r5 : List Char) (ks : List Char) (v : PyValue)
    (h0 : skipWs l = '"' :: lr)
    (h1 : parseStrBody lr = some (ks, r2))
    (h2 : skipWs r2 = ':' :: r3)
    (h3 : parseVal fuel r3 = some (v, r4))
    (h4 : skipWs r4 = ',' :: r5) :
    parseEntries (fuel + 1) l =
      (parseEntries fuel r5).bind (fun p => some (.cons (String.mk ks) v p.1, p.2)) := by
  conv_lhs => rw [parseEntries.eq_def]
  simp [h0, h1, h2, h3, h4]

theorem pe_last (fuel : Nat) (l lr r2 r3 r4 r5 : List Char) (ks : List Char) (v : PyValue)
    (h0 : skipWs l = '"' :: lr)
    (h1 : parseStrBody lr = some (ks, r2))
    (h2 : skipWs r2 = ':' :: r3)
    (h3 : parseVal fuel r3 = some (v, r4))
    (h4 : skipWs r4 = rbraceC :: r5) :
    parseEntries (fuel + 1) l = some (.cons (String.mk ks) v .nil, r5) := by
  conv_lhs => rw [parseEntries.eq_def]
  simp [h0, h1, h2, h3, h4, show (rbraceC = ',') = False from by simp [rbraceC]]

theorem skipWs_pre_dump (pre : List Char) (ind : Nat) (v : PyValue) (rest : List Char)
    (hpre : pre.all isWsC = true) :
    skipWs (pre ++ (dumpV ind v ++ rest)) = dumpV ind v ++ rest := by
  obtain ⟨c, t, hct, hws, _⟩ := dumpV_head ind v
  rw [skipWs_append_ws pre _ hpre, hct, List.cons_append,
    skipWs_cons_not_ws c (t ++ rest) hws]

theorem pyListSizeOf_pos (xs : PyList) : 0 < sizeOf xs := by
  cases xs <;> simp_arith

theorem pyDictSizeOf_pos (d : PyDict) : 0 < sizeOf d := by
  cases d <;> simp_arith

theorem noDigit_dumpLRest (ind j : Nat) (xs : PyList) (rest : List Char) :
    noDigitHead (dumpLRest ind xs ++ '\n' :: (indentC j ++ ']' :: rest)) = true := by
  cases xs <;> rfl

theorem noDigit_dumpDRest (ind j : Nat) (d : PyDict) (rest : List Char) :
    noDigitHead (dumpDRest ind d ++ '\n' :: (indentC j ++ rbraceC :: rest)) = true := by
  cases d <;> rfl

theorem pyValueSizeOf_pos (v : PyValue) : 0 < sizeOf v := by
  cases v <;> simp_arith

theorem rtMain (n : Nat) :
    (∀ (v : PyValue) (ind fuel : Nat) (pre rest : List Char), sizeOf v ≤ n →
      representable v = true → weight v ≤ fuel →
      pre.all isWsC = true → noDigitHead rest = true →
      parseVal fuel (pre ++ (dumpV ind v ++ rest)) = some (v, rest)) ∧
    (∀ (x : PyValue) (xs : PyList) (ind j fuel : Nat) (pre rest : List Char),
      sizeOf x + sizeOf xs ≤ n →
      representable x = true → representableL xs = true →
      weightL (.cons x xs) ≤ fuel → pre.all isWsC = true →
      parseItems fuel
        (pre ++ (dumpV ind x ++ (dumpLRest ind xs ++ '\n' :: (indentC j ++ ']' :: rest)))) =
        some (.cons x xs, rest)) ∧
    (∀ (k : String) (v : PyValue) (d : PyDict) (ind j fuel : Nat) (pre rest : List Char),
      sizeOf v + sizeOf d ≤ n →
      representable v = true → representableD d = true →
      weightD (.cons k v d) ≤ fuel → pre.all isWsC = true →
      parseEntries fuel
        (pre ++ ((encStr k ++ ':' :: ' ' :: dumpV ind v) ++
          (dumpDRest ind d ++ '\n' :: (indentC j ++ rbraceC :: rest)))) =
        some (.cons k v d, rest)) := by
  induction n using Nat.strong_induction_on with
  | _ n IH =>
    refine ⟨?_, ?_, ?_⟩
    · intro v ind fuel pre rest hsz hrep hw hpre hnd
      have hwp := weight_pos v
      cases fuel with
      | zero => omega
      | succ f =>
        have hs := skipWs_pre_dump pre ind v rest hpre
        cases v with
        | none => exact pv_null f _ rest (by rw [hs]; rfl)
        | bool b =>
          cases b with
          | true => exact pv_true f _ rest (by rw [hs]; rfl)
          | false => exact pv_false f _ rest (by rw [hs]; rfl)
        | int n2 =>
          by_cases hn : n2 < 0
          · obtain ⟨c, t, hct, hdig⟩ := natChars_head n2.natAbs
            have hsh : dumpV ind (.int n2) ++ rest = '-' :: (c :: (t ++ rest)) := by
              show intChars n2 ++ rest = _
              rw [intChars, if_pos hn, hct]
              rfl
            rw [pv_neg f _ (t ++ rest) c (by rw [hs, hsh]) hdig]
            have hq : (c :: (t ++ rest)) = natChars n2.natAbs ++ rest := by
              rw [hct]; rfl
            rw [hq, parseDigits_natChars _ _ hnd]
            have hval : -((n2.natAbs : Nat) : Int) = n2 := by omega
            show some (PyValue.int (-((n2.natAbs : Nat) : Int)), rest) = _
            rw [hval]
          · obtain ⟨c, t, hct, hdig⟩ := natChars_head n2.toNat
            have hsh : dumpV ind (.int n2) ++ rest = c :: (t ++ rest) := by
              show intChars n2 ++ rest = _
              rw [intChars, if_neg hn, hct]
              rfl
            rw [pv_digit f _ (t ++ rest) c (by rw [hs, hsh]) hdig]
            have hq : (c :: (t ++ rest)) = natChars n2.toNat ++ rest := by
              rw [hct]; rfl
            rw [hq, parseDigits_natChars _ _ hnd]
            have hval : ((n2.toNat : Nat) : Int) = n2 := by omega
            show some (PyValue.int ((n2.toNat : Nat) : Int), rest) = _
            rw [hval]
        | str s =>
          have hsh : dumpV ind (.str s) ++ rest = '"' :: (encStrChars s.data ++ '"' :: rest) := by
            show encStr s ++ rest = _
            simp [encStr, List.append_assoc]
          rw [pv_str f _ _ (by rw [hs, hsh]), parseStrBody_enc]
          rfl
        | obj s => simp [representable] at hrep
        | list xs =>
          cases xs with
          | nil =>
            refine pv_list_empty f _ (']' :: rest) rest (by rw [hs]; rfl) ?_
            exact skipWs_cons_not_ws ']' rest (by decide)
          | cons x xs =>
            simp only [representable, representableL, Bool.and_eq_true] at hrep
            simp only [weight, weightL] at hw
            simp only [PyValue.list.sizeOf_spec, PyList.cons.sizeOf_spec] at hsz
            obtain ⟨c2, t2, hct2, hws2, hne2⟩ := dumpV_head (ind + 2) x
            have hsh : dumpV ind (.list (.cons x xs)) ++ rest =
                '[' :: (('\n' :: indentC (ind + 2)) ++
                  (dumpV (ind + 2) x ++ (dumpLRest (ind + 2) xs ++
                    '\n' :: (indentC ind ++ ']' :: rest)))) := by
              show ('[' :: '\n' :: (indentC (ind + 2) ++ dumpV (ind + 2) x ++
                  dumpLRest (ind + 2) xs ++ '\n' :: (indentC ind ++ [']']))) ++ rest = _
              simp [List.append_assoc]
            have hskip2 : skipWs (('\n' :: indentC (ind + 2)) ++
                (dumpV (ind + 2) x ++ (dumpLRest (ind + 2) xs ++
                  '\n' :: (indentC ind ++ ']' :: rest)))) =
                c2 :: (t2 ++ (dumpLRest (ind + 2) xs ++
                  '\n' :: (indentC ind ++ ']' :: rest))) := by
              refine skipWs_pre _ _ c2 _ ?_ ?_ hws2
              · simp [List.all_cons, isWsC, indentC_all_ws]
              · rw [hct2]; rfl
            rw [pv_list_items f _ _ _ c2 (by rw [hs, hsh]) hskip2 hne2]
            have hq : (c2 :: (t2 ++ (dumpLRest (ind + 2) xs ++
                '\n' :: (indentC ind ++ ']' :: rest)))) =
                dumpV (ind + 2) x ++ (dumpLRest (ind + 2) xs ++
                  '\n' :: (indentC ind ++ ']' :: rest)) := by
              rw [hct2]; rfl
            rw [hq]
            have hri := (IH (sizeOf x + sizeOf xs) (by omega)).2.1 x xs (ind + 2) ind f []
              rest le_rfl hrep.1 hrep.2 (by simp only [weightL]; omega) rfl
            rw [List.nil_append] at hri
            rw [hri]
            rfl
        | dict d =>
          cases d with
          | nil =>
            refine pv_dict_empty f _ (rbraceC :: rest) rest (by rw [hs]; rfl) ?_
            exact skipWs_cons_not_ws rbraceC rest (by decide)
          | cons k v r =>
            simp only [representable, representableD, Bool.and_eq_true] at hrep
            simp only [weight, weightD] at hw
            simp only [PyValue.dict.sizeOf_spec, PyDict.cons.sizeOf_spec] at hsz
            have hW : (encStr k ++ ':' :: ' ' :: dumpV (ind + 2) v) ++
                (dumpDRest (ind + 2) r ++ '\n' :: (indentC ind ++ rbraceC :: rest)) =
                '"' :: (encStrChars k.data ++ '"' :: ':' :: ' ' ::
                  (dumpV (ind + 2) v ++ (dumpDRest (ind + 2) r ++
                    '\n' :: (indentC ind ++ rbraceC :: rest)))) := by
              simp [encStr, List.append_assoc]
            have hsh : dumpV ind (.dict (.cons k v r)) ++ rest =
                lbraceC :: (('\n' :: indentC (ind + 2)) ++
                  ((encStr k ++ ':' :: ' ' :: dumpV (ind + 2) v) ++
                    (dumpDRest (ind + 2) r ++ '\n' :: (indentC ind ++ rbraceC :: rest)))) := by
              show (lbraceC :: '\n' :: (indentC (ind + 2) ++
                  (encStr k ++ ':' :: ' ' :: dumpV (ind + 2) v) ++
                  dumpDRest (ind + 2) r ++ '\n' :: (indentC ind ++ [rbraceC]))) ++ rest = _
              simp [List.append_assoc]
            have hskip2 : skipWs (('\n' :: indentC (ind + 2)) ++
                ((encStr k ++ ':' :: ' ' :: dumpV (ind + 2) v) ++
                  (dumpDRest (ind + 2) r ++ '\n' :: (indentC ind ++ rbraceC :: rest)))) =
                '"' :: (encStrChars k.data ++ '"' :: ':' :: ' ' ::
                  (dumpV (ind + 2) v ++ (dumpDRest (ind + 2) r ++
                    '\n' :: (indentC ind ++ rbraceC :: rest)))) := by
              refine skipWs_pre _ _ '"' _ ?_ hW (by decide)
              simp [List.all_cons, isWsC, indentC_all_ws]
            rw [pv_dict_entries f _ _ _ '"' (by rw [hs, hsh]) hskip2 (by decide)]
            have hre := (IH (sizeOf v + sizeOf r) (by omega)).2.2 k v r (ind + 2) ind f []
              rest le_rfl hrep.1 hrep.2 (by simp only [weightD]; omega) rfl
            rw [List.nil_append, hW] at hre
            rw [hre]
            rfl
    · intro x xs ind j fuel pre rest hsz hrx hrxs hw hpre
      simp only [weightL] at hw
      have hwp := weight_pos x
      have hxp := pyValueSizeOf_pos x
      have hxsp := pyListSizeOf_pos xs
      cases fuel with
      | zero => omega
      | succ f =>
        have hv := (IH (sizeOf x) (by omega)).1 x ind f pre
          (dumpLRest ind xs ++ '\n' :: (indentC j ++ ']' :: rest)) le_rfl hrx (by omega) hpre
          (noDigit_dumpLRest ind j xs rest)
        cases xs with
        | nil =>
          refine pi_last f _ _ rest x hv ?_
          show skipWs (dumpLRest ind .nil ++ '\n' :: (indentC j ++ ']' :: rest)) = ']' :: rest
          rw [show dumpLRest ind .nil ++ '\n' :: (indentC j ++ ']' :: rest) =
            ('\n' :: indentC j) ++ (']' :: rest) from by simp [dumpLRest]]
          refine skipWs_pre _ _ ']' rest ?_ rfl (by decide)
          simp [List.all_cons, isWsC, indentC_all_ws]
        | cons y ys =>
          simp only [representableL, Bool.and_eq_true] at hrxs
          simp only [PyList.cons.sizeOf_spec] at hsz
          have hsh : dumpLRest ind (.cons y ys) ++ '\n' :: (indentC j ++ ']' :: rest) =
              ',' :: (('\n' :: indentC ind) ++
                (dumpV ind y ++ (dumpLRest ind ys ++ '\n' :: (indentC j ++ ']' :: rest)))) := by
            show (',' :: '\n' :: (indentC ind ++ dumpV ind y ++ dumpLRest ind ys)) ++
                '\n' :: (indentC j ++ ']' :: rest) = _
            simp [List.append_assoc]
          have h2 : skipWs (dumpLRest ind (.cons y ys) ++ '\n' :: (indentC j ++ ']' :: rest)) =
              ',' :: (('\n' :: indentC ind) ++
                (dumpV ind y ++ (dumpLRest ind ys ++ '\n' :: (indentC j ++ ']' :: rest)))) := by
            rw [hsh]
            exact skipWs_cons_not_ws ',' _ (by decide)
          rw [pi_cons f _ _ _ x hv h2]
          have hri := (IH (sizeOf y + sizeOf ys) (by omega)).2.1 y ys ind j f
            ('\n' :: indentC ind) rest le_rfl hrxs.1 hrxs.2
            (by simp only [weightL] at hw ⊢; omega)
            (by simp [List.all_cons, isWsC, indentC_all_ws])
          rw [hri]
          rfl
    · intro k v d ind j fuel pre rest hsz hrv hrd hw hpre
      simp only [weightD] at hw
      have hwp := weight_pos v
      have hvp := pyValueSizeOf_pos v
      have hdp := pyDictSizeOf_pos d
      cases fuel with
      | zero => omega
      | succ f =>
        have hW : (encStr k ++ ':' :: ' ' :: dumpV ind v) ++
            (dumpDRest ind d ++ '\n' :: (indentC j ++ rbraceC :: rest)) =
            '"' :: (encStrChars k.data ++ '"' :: ':' :: ' ' ::
              (dumpV ind v ++ (dumpDRest ind d ++ '\n' :: (indentC j ++ rbraceC :: rest)))) := by
          simp [encStr, List.append_assoc]
        have h0 : skipWs (pre ++ ((encStr k ++ ':' :: ' ' :: dumpV ind v) ++
            (dumpDRest ind d ++ '\n' :: (indentC j ++ rbraceC :: rest)))) =
            '"' :: (encStrChars k.data ++ '"' :: ':' :: ' ' ::
              (dumpV ind v ++ (dumpDRest ind d ++ '\n' :: (indentC j ++ rbraceC :: rest)))) :=
          skipWs_pre pre _ '"' _ hpre hW (by decide)
        have h1 : parseStrBody (encStrChars k.data ++ '"' :: ':' :: ' ' ::
            (dumpV ind v ++ (dumpDRest ind d ++ '\n' :: (indentC j ++ rbraceC :: rest)))) =
            some (k.data, ':' :: ' ' ::
              (dumpV ind v ++ (dumpDRest ind d ++ '\n' :: (indentC j ++ rbraceC :: rest)))) :=
          parseStrBody_enc k.data _
        have h2 : skipWs (':' :: ' ' ::
            (dumpV ind v ++ (dumpDRest ind d ++ '\n' :: (indentC j ++ rbraceC :: rest)))) =
            ':' :: (' ' ::
              (dumpV ind v ++ (dumpDRest ind d ++ '\n' :: (indentC j ++ rbraceC :: rest)))) :=
          skipWs_cons_not_ws ':' _ (by decide)
        have h3 := (IH (sizeOf v) (by omega)).1 v ind f [' ']
          (dumpDRest ind d ++ '\n' :: (indentC j ++ rbraceC :: rest)) le_rfl hrv (by omega)
          (by decide) (noDigit_dumpDRest ind j d rest)
        rw [List.singleton_append] at h3
        cases d with
        | nil =>
          refine pe_last f _ _ _ _ _ rest k.data v h0 h1 h2 h3 ?_
          show skipWs (dumpDRest ind .nil ++ '\n' :: (indentC j ++ rbraceC :: rest)) =
            rbraceC :: rest
          rw [show dumpDRest ind .nil ++ '\n' :: (indentC j ++ rbraceC :: rest) =
            ('\n' :: indentC j) ++ (rbraceC :: rest) from by simp [dumpDRest]]
          refine skipWs_pre _ _ rbraceC rest ?_ rfl (by decide)
          simp [List.all_cons, isWsC, indentC_all_ws]
        | cons k2 v2 r2 =>
          simp only [representableD, Bool.and_eq_true] at hrd
          simp only [PyDict.cons.sizeOf_spec] at hsz
          have hsh : dumpDRest ind (.cons k2 v2 r2) ++ '\n' :: (indentC j ++ rbraceC :: rest) =
              ',' :: (('\n' :: indentC ind) ++
                ((encStr k2 ++ ':' :: ' ' :: dumpV ind v2) ++
                  (dumpDRest ind r2 ++ '\n' :: (indentC j ++ rbraceC :: rest)))) := by
            show (',' :: '\n' :: (indentC ind ++ (encStr k2 ++ ':' :: ' ' :: dumpV ind v2) ++
                dumpDRest ind r2)) ++ '\n' :: (indentC j ++ rbraceC :: rest) = _
            simp [List.append_assoc]
          have h4 : skipWs (dumpDRest ind (.cons k2 v2 r2) ++
              '\n' :: (indentC j ++ rbraceC :: rest)) =
              ',' :: (('\n' :: indentC ind) ++
                ((encStr k2 ++ ':' :: ' ' :: dumpV ind v2) ++
                  (dumpDRest ind r2 ++ '\n' :: (indentC j ++ rbraceC :: rest)))) := by
            rw [hsh]
            exact skipWs_cons_not_ws ',' _ (by decide)
          rw [pe_cons f _ _ _ _ _ _ k.data v h0 h1 h2 h3 h4]
          have hre := (IH (sizeOf v2 + sizeOf r2) (by omega)).2.2 k2 v2 r2 ind j f
            ('\n' :: indentC ind) rest le_rfl hrd.1 hrd.2
            (by simp only [weightD] at hw ⊢; omega)
            (by simp [List.all_cons, isWsC, indentC_all_ws])
          rw [hre]
          rfl

theorem rtV (v : PyValue) (ind fuel : Nat) (pre rest : List Char)
    (hrep : representable v = true) (hw : weight v ≤ fuel)
    (hpre : pre.all isWsC = true) (hnd : noDigitHead rest = true) :
    parseVal fuel (pre ++ (dumpV ind v ++ rest)) = some (v, rest) :=
  (rtMain (sizeOf v)).1 v ind fuel pre rest le_rfl hrep hw hpre hnd

theorem weightBound (n : Nat) :
    (∀ (v : PyValue) (ind : Nat), sizeOf v ≤ n → weight v ≤ (dumpV ind v).length) ∧
    (∀ (xs : PyList) (ind : Nat), sizeOf xs ≤ n → weightL xs ≤ (dumpLRest ind xs).length) ∧
    (∀ (d : PyDict) (ind : Nat), sizeOf d ≤ n → weightD d ≤ (dumpDRest ind d).length) := by
  induction n using Nat.strong_induction_on with
  | _ n IH =>
    refine ⟨?_, ?_, ?_⟩
    · intro v ind hsz
      obtain ⟨c, t, hct, -, -⟩ := dumpV_head ind v
      cases v with
      | none => rw [hct]; simp [weight]
      | bool b => rw [hct]; simp [weight]
      | int n2 => rw [hct]; simp [weight]
      | str s => rw [hct]; simp [weight]
      | obj s => rw [hct]; simp [weight]
      | list xs =>
        cases xs with
        | nil => simp [weight, weightL, dumpV]
        | cons x xs =>
          simp only [PyValue.list.sizeOf_spec, PyList.cons.sizeOf_spec] at hsz
          have hxsp := pyListSizeOf_pos xs
          have hxp := pyValueSizeOf_pos x
          have h1 := (IH (sizeOf x) (by omega)).1 x (ind + 2) le_rfl
          have h2 := (IH (sizeOf xs) (by omega)).2.1 xs (ind + 2) le_rfl
          simp only [weight, weightL, dumpV, List.length_cons, List.length_append,
            indentC, List.length_replicate]
          omega
      | dict d =>
        cases d with
        | nil => simp [weight, weightD, dumpV]
        | cons k v r =>
          simp only [PyValue.dict.sizeOf_spec, PyDict.cons.sizeOf_spec] at hsz
          have hvp := pyValueSizeOf_pos v
          have hrp := pyDictSizeOf_pos r
          have h1 := (IH (sizeOf v) (by omega)).1 v (ind + 2) le_rfl
          have h2 := (IH (sizeOf r) (by omega)).2.2 r (ind + 2) le_rfl
          simp only [weight, weightD, dumpV, List.length_cons, List.length_append,
            indentC, List.length_replicate]
          omega
    · intro xs ind hsz
      cases xs with
      | nil => simp [weightL, dumpLRest]
      | cons y ys =>
        simp only [PyList.cons.sizeOf_spec] at hsz
        have hyp := pyValueSizeOf_pos y
        have hysp := pyListSizeOf_pos ys
        have h1 := (IH (sizeOf y) (by omega)).1 y ind le_rfl
        have h2 := (IH (sizeOf ys) (by omega)).2.1 ys ind le_rfl
        simp only [weightL, dumpLRest, List.length_cons, List.length_append,
          indentC, List.length_replicate]
        omega
    · intro d ind hsz
      cases d with
      | nil => simp [weightD, dumpDRest]
      | cons k v r =>
        simp only [PyDict.cons.sizeOf_spec] at hsz
        have hvp := pyValueSizeOf_pos v
        have hrp := pyDictSizeOf_pos r
        have h1 := (IH (sizeOf v) (by omega)).1 v ind le_rfl
        have h2 := (IH (sizeOf r) (by omega)).2.2 r ind le_rfl
        simp only [weightD, dumpDRest, List.length_cons, List.length_append,
          indentC, List.length_replicate]
        omega

theorem weight_le_dumps (v : PyValue) : weight v ≤ (dumpV 0 v).length :=
  (weightBound (sizeOf v)).1 v 0 le_rfl

/-- The JSON parser is a left inverse of the serializer on representable
values: parsing the pretty-printed text recovers the value exactly. -/
theorem parseJson_dumps (v : PyValue) (hrep : representable v = true) :
    parseJson (dumps v) = some v := by
  have hfuel : weight v ≤ (dumpV 0 v).length + 1 :=
    le_trans (weight_le_dumps v) (by omega)
  have h := rtV v 0 ((dumpV 0 v).length + 1) [] [] hrep hfuel rfl rfl
  rw [List.nil_append, List.append_nil] at h
  show (parseVal ((dumpV 0 v).length + 1) (dumpV 0 v)).bind _ = some v
  rw [h]
  rfl

/-- A non-serializable value is rendered through the `default=str` fallback
and comes back as a plain string. -/
theorem parseJson_dumps_obj (s : String) : parseJson (dumps (.obj s)) = some (.str s) := by
  rw [show dumps (.obj s) = dumps (.str s) from rfl]
  exact parseJson_dumps (.str s) rfl

/-! ## External collaborators

The spec (§1, §6) excludes the book-library operations, persistence and
framework wiring: the dispatcher consumes them as opaque functions that
return data or raise.  They are modelled as fields of `Collab`;
`src/blueprints/mcp.py` imports each from another module. -/

structure Collab where
  /-- `blueprints.main.get_calibre_books(search_query, page, page_size)` →
  `(books, total_books, error)`. -/
  get_calibre_books : PyValue → PyValue → PyValue → Py (PyValue × PyValue × PyValue)
  /-- `anx_library.get_anx_books(username)`. -/
  get_anx_books : PyValue → Py PyValue
  /-- `blueprints.api.calibre.get_calibre_book_details(book_id)` (imported as
  `get_raw_calibre_book_details`). -/
  get_raw_calibre_book_details : PyValue → Py PyValue
  /-- `anx_library.get_anx_book_details(username, book_id, as_dict=True)`. -/
  get_raw_anx_book_details : PyValue → PyValue → Py PyValue
  /-- `blueprints.api.books._push_calibre_to_anx_logic(user, book_id)`. -/
  push_calibre_to_anx_logic : PyValue → PyValue → Py PyValue
  /-- `blueprints.api.books._send_to_kindle_logic(user, book_id)`. -/
  send_to_kindle_logic : PyValue → PyValue → Py PyValue
  /-- `blueprints.api.books._push_anx_to_calibre_logic(user, book_id)`. -/
  push_anx_to_calibre_logic : PyValue → PyValue → Py PyValue
  /-- `utils.epub_chapter_parser.get_parsed_chapters(library_type, book_id,
  user)`: a list of `(title, content)` pairs. -/
  get_parsed_chapters : PyValue → PyValue → PyValue → Py (List (PyValue × PyValue))
  /-- `utils.epub_utils._count_words(content)`. -/
  count_words : PyValue → Py PyValue
  /-- `utils.audiobook_tasks_db.get_latest_task_for_book(user_id, book_id,
  library_type)`. -/
  get_latest_task_for_book : PyValue → PyValue → PyValue → Py PyValue
  /-- Models lines 246–278 of `generate_audiobook`: posting the form to
  `generate_audiobook_route` inside `current_app.test_request_context` and
  unwrapping the Flask response.  This block is framework plumbing around an
  external route (the spec's §1 excludes HTTP transport/framework wiring and
  audiobook job submission), so it is a collaborator taking
  `(user, book_id, library_type)`. -/
  generate_audiobook_route_call : PyValue → PyValue → PyValue → Py PyValue
  /-- `utils.audiobook_tasks_db.get_audiobook_task_by_id(task_id)`. -/
  get_audiobook_task_by_id : PyValue → Py PyValue
  /-- `utils.anx_stats.get_user_reading_stats(username, time_range)`. -/
  get_user_reading_stats : PyValue → PyValue → Py PyValue

/-- `list(v.keys())` — only mappings have `.keys`. -/
def pyKeysList (v : PyValue) : Py PyValue :=
  match v with
  | .dict d => .ok (.list (PyList.ofList (d.keys.map PyValue.str)))
  | w => .error (attrErr (pyTypeName w) "keys")

/-- `format_calibre_book_data_for_mcp(book_data)` (mcp.py lines 57–78). -/
def format_calibre_book_data_for_mcp (book_data : PyValue) : Py PyValue := do
  if !(pyTruthy book_data) then
    return PyValue.none
  let app_id ← pyDotGetD book_data "application_id" .none
  let book_id ←
    if pyTruthy app_id then pure app_id
    else pyDotGetD book_data "id" .none
  if pyIsNone book_id then
    return PyValue.none
  let title ← pyDotGetD book_data "title" (.str "N/A")
  let authors ← pyDotGetD book_data "authors" (.list .nil)
  let tags ← pyDotGetD book_data "tags" (.list .nil)
  let series ← pyDotGetD book_data "series" (.str "")
  let publisher ← pyDotGetD book_data "publisher" (.str "")
  let pubdate_raw ← pyDotGetD book_data "pubdate" .none
  let pubdate ← pySplitT0 (if pyTruthy pubdate_raw then pubdate_raw else .str "")
  let comments ← pyDotGetD book_data "comments" (.str "")
  let rating ← pyDotGetD book_data "rating" (.int 0)
  let fm ← pyDotGetD book_data "format_metadata" (.dict .nil)
  let formats ← pyKeysList fm
  return .dict (PyDict.ofList
    [("book_id", book_id), ("title", title), ("authors", authors), ("tags", tags),
     ("series", series), ("publisher", publisher), ("pubdate", pubdate),
     ("comments", comments), ("rating", rating), ("formats", formats)])

/-- Python `for … in v` over a value (lists, strings and dict keys are
iterable; scalars raise `TypeError`). -/
def pyIterate (v : PyValue) : Py (List PyValue) :=
  match v with
  | .list xs => .ok xs.toList
  | .str s => .ok (s.data.map (fun c => .str (String.singleton c)))
  | .dict d => .ok (d.keys.map PyValue.str)
  | w => .error (typeErr ("argument of type " ++ quoteName (pyTypeName w) ++ " is not iterable"))

/-- The list comprehension
`[format_calibre_book_data_for_mcp(book) for book in books if book]`. -/
def formatBooks : List PyValue → Py (List PyValue)
  | [] => .ok []
  | b :: rest => do
    if pyTruthy b then
      let f ← format_calibre_book_data_for_mcp b
      let r ← formatBooks rest
      pure (f :: r)
    else
      formatBooks rest

/-- The Chinese invalid-library-type error dict shared by the library tools. -/
def invalidLibraryDict : PyValue :=
  .dict (.cons "error"
    (.str ("无效的书库类型。请使用 " ++ squote ++ "calibre" ++ squote ++ " 或 " ++
      squote ++ "anx" ++ squote ++ "。")) .nil)

/-- `search_calibre_books(search_expression, limit=20)` (lines 82–88). -/
def search_calibre_books (c : Collab) (search_expression limit : PyValue) : Py PyValue := do
  let (books, _total_books, _error) ← c.get_calibre_books search_expression (.int 1) limit
  let bs ← pyIterate books
  let fs ← formatBooks bs
  return .list (PyList.ofList fs)

/-- `get_recent_books(library_type, limit=20)` (lines 90–99). -/
def get_recent_books (c : Collab) (u : PyValue) (library_type limit : PyValue) : Py PyValue := do
  if pyEq library_type (.str "calibre") then
    let (books, _total_books, _error) ← c.get_calibre_books .none (.int 1) limit
    let bs ← pyIterate books
    let fs ← formatBooks bs
    return .list (PyList.ofList fs)
  else if pyEq library_type (.str "anx") then
    let uname ← pyGetItem u (.str "username")
    let books ← c.get_anx_books uname
    pySliceTo books limit
  else
    return invalidLibraryDict

/-- `get_book_details(library_type, book_id)` (lines 101–109). -/
def get_book_details (c : Collab) (u : PyValue) (library_type book_id : PyValue) : Py PyValue := do
  if pyEq library_type (.str "calibre") then
    let raw_details ← c.get_raw_calibre_book_details book_id
    format_calibre_book_data_for_mcp raw_details
  else if pyEq library_type (.str "anx") then
    let uname ← pyGetItem u (.str "username")
    c.get_raw_anx_book_details uname book_id
  else
    return invalidLibraryDict

/-- `push_calibre_book_to_anx(book_id)` (lines 111–112). -/
def push_calibre_book_to_anx (c : Collab) (u : PyValue) (book_id : PyValue) : Py PyValue := do
  let ud ← pyDictify u
  c.push_calibre_to_anx_logic ud book_id

/-- `send_calibre_book_to_kindle(book_id)` (lines 114–115). -/
def send_calibre_book_to_kindle (c : Collab) (u : PyValue) (book_id : PyValue) : Py PyValue := do
  let ud ← pyDictify u
  c.send_to_kindle_logic ud book_id

/-- `push_anx_book_to_calibre(book_id)` (lines 117–118). -/
def push_anx_book_to_calibre (c : Collab) (u : PyValue) (book_id : PyValue) : Py PyValue := do
  let ud ← pyDictify u
  c.push_anx_to_calibre_logic ud book_id

/-- The per-branch `book_title` computation repeated in the content tools
(e.g. lines 126–133): on an unknown library type the tools return the
invalid-library dict, modelled by the `Option` result being `none`. -/
def bookTitleFor (c : Collab) (u : PyValue) (library_type book_id : PyValue) :
    Py (Option PyValue) := do
  if pyEq library_type (.str "calibre") then
    let bd ← c.get_raw_calibre_book_details book_id
    let t ← pyDotGetD bd "title" (.str "N/A")
    return some t
  else if pyEq library_type (.str "anx") then
    let uname ← pyGetItem u (.str "username")
    let bd ← c.get_raw_anx_book_details uname book_id
    if pyTruthy bd then
      let t ← pyDotGetD bd "title" (.str "N/A")
      return some t
    else
      return some (.str "N/A")
  else
    return Option.none

/-- `get_table_of_contents(library_type, book_id)` (lines 120–143). -/
def get_table_of_contents (c : Collab) (u : PyValue) (library_type book_id : PyValue) :
    Py PyValue :=
  tryCatch
    (do
      let ud ← pyDictify u
      let chapters ← c.get_parsed_chapters library_type book_id ud
      let toc_items := chapters.mapIdx (fun i p =>
        PyValue.dict (.cons "chapter_number" (.int (i + 1)) (.cons "title" p.1 .nil)))
      let bt ← bookTitleFor c u library_type book_id
      match bt with
      | Option.none => return invalidLibraryDict
      | some book_title =>
        return .dict (PyDict.ofList
          [("library_type", library_type), ("book_id", book_id),
           ("book_title", book_title), ("total_chapters", .int toc_items.length),
           ("chapters", .list (PyList.ofList toc_items))])
    )
    (fun e => pure (.dict (.cons "error" (.str ("获取目录时出错: " ++ e.msg)) .nil)))

/-- `get_chapter_content(library_type, book_id, chapter_number)`
(lines 145–172). -/
def get_chapter_content (c : Collab) (u : PyValue)
    (library_type book_id chapter_number : PyValue) : Py PyValue :=
  tryCatch
    (do
      let ud ← pyDictify u
      let chapters ← c.get_parsed_chapters library_type book_id ud
      let inRange ← pyChainLe 1 chapter_number chapters.length
      if !inRange then
        return .dict (.cons "error"
          (.str ("章节号 " ++ pyStr chapter_number ++ " 无效，有效范围: 1-" ++
            natStr chapters.length)) .nil)
      let cn := (asIntArith chapter_number).getD 0
      let (chapter_title, chapter_content) :=
        (chapters.get? (cn - 1).toNat).getD (.none, .none)
      let bt ← bookTitleFor c u library_type book_id
      match bt with
      | Option.none => return invalidLibraryDict
      | some book_title =>
        return .dict (PyDict.ofList
          [("library_type", library_type), ("book_id", book_id),
           ("book_title", book_title), ("chapter_number", chapter_number),
           ("chapter_title", chapter_title), ("content", chapter_content)])
    )
    (fun e => pure (.dict (.cons "error" (.str ("获取章节内容时出错: " ++ e.msg)) .nil)))

/-- `get_entire_book_content(library_type, book_id)` (lines 174–198). -/
def get_entire_book_content (c : Collab) (u : PyValue) (library_type book_id : PyValue) :
    Py PyValue :=
  tryCatch
    (do
      let ud ← pyDictify u
      let chapters ← c.get_parsed_chapters library_type book_id ud
      let full_text_parts := chapters.mapIdx (fun i p =>
        "--- Chapter " ++ natStr (i + 1) ++ ": " ++ pyStr p.1 ++ " ---\n\n" ++
          pyStr p.2 ++ "\n\n")
      let bt ← bookTitleFor c u library_type book_id
      match bt with
      | Option.none => return invalidLibraryDict
      | some book_title =>
        return .dict (PyDict.ofList
          [("library_type", library_type), ("book_id", book_id),
           ("book_title", book_title),
           ("full_text", .str (String.join full_text_parts))])
    )
    (fun e => pure (.dict (.cons "error" (.str ("获取全书内容时出错: " ++ e.msg)) .nil)))

/-- The statistics loop of `get_word_count_statistics`: per-chapter entries
plus the running `total_word_count += word_count`. -/
def wordStatsLoop (c : Collab) (i : Nat) (total : PyValue) :
    List (PyValue × PyValue) → Py (List PyValue × PyValue)
  | [] => .ok ([], total)
  | p :: rest => do
    let wc ← c.count_words p.2
    let entry := PyValue.dict (PyDict.ofList
      [("chapter_number", .int (i + 1)), ("chapter_title", p.1), ("word_count", wc)])
    let total2 ← pyAddAug total wc
    let (es, tot) ← wordStatsLoop c (i + 1) total2 rest
    pure (entry :: es, tot)

/-- `get_word_count_statistics(library_type, book_id)` (lines 200–233). -/
def get_word_count_statistics (c : Collab) (u : PyValue) (library_type book_id : PyValue) :
    Py PyValue :=
  tryCatch
    (do
      let ud ← pyDictify u
      let chapters ← c.get_parsed_chapters library_type book_id ud
      let (stats, total_word_count) ← wordStatsLoop c 0 (.int 0) chapters
      let bt ← bookTitleFor c u library_type book_id
      match bt with
      | Option.none => return invalidLibraryDict
      | some book_title =>
        return .dict (PyDict.ofList
          [("library_type", library_type), ("book_id", book_id),
           ("book_title", book_title), ("total_word_count", total_word_count),
           ("chapter_statistics", .list (PyList.ofList stats))])
    )
    (fun e => pure (.dict (.cons "error" (.str ("获取字数统计时出错: " ++ e.msg)) .nil)))

/-- `generate_audiobook(book_id, library_type)` (lines 236–278; the Flask
request-context block is the `generate_audiobook_route_call` collaborator). -/
def generate_audiobook (c : Collab) (u : PyValue) (book_id library_type : PyValue) :
    Py PyValue := do
  let uid ← pyGetItem u (.str "id")
  let existing_task ← c.get_latest_task_for_book uid book_id library_type
  let inProgress ←
    if pyTruthy existing_task then do
      let st ← pyGetItem existing_task (.str "status")
      let mem ← pyContains (.list (PyList.ofList [.str "error", .str "completed"])) st
      pure (!mem)
    else pure false
  if inProgress then
    let tid ← pyGetItem existing_task (.str "task_id")
    return .dict (PyDict.ofList [("status", .str "already_in_progress"), ("task_id", tid)])
  else
    c.generate_audiobook_route_call u book_id library_type

/-- `get_audiobook_generation_status(task_id)` (lines 281–295). -/
def get_audiobook_generation_status (c : Collab) (u : PyValue) (task_id : PyValue) :
    Py PyValue := do
  let task ← c.get_audiobook_task_by_id task_id
  if !(pyTruthy task) then
    return .dict (.cons "error" (.str "Task not found.") .nil)
  let lt ← pyGetItem task (.str "library_type")
  let wrongUser ←
    if pyEq lt (.str "anx") then do
      let tuid ← pyGetItem task (.str "user_id")
      let uid ← pyGetItem u (.str "id")
      pure (!(pyEq tuid uid))
    else pure false
  if wrongUser then
    return .dict (.cons "error" (.str "Task not found for this user.") .nil)
  pyDictify task

/-- `get_audiobook_status_by_book(book_id, library_type)` (lines 298–307). -/
def get_audiobook_status_by_book (c : Collab) (u : PyValue) (book_id library_type : PyValue) :
    Py PyValue := do
  let uid ← pyGetItem u (.str "id")
  let task ← c.get_latest_task_for_book uid book_id library_type
  if !(pyTruthy task) then
    return .dict (PyDict.ofList
      [("status", .str "not_found"),
       ("message", .str "No active or completed task found for this book.")])
  pyDictify task

/-- `mcp_get_user_reading_stats(time_range)` (lines 309–315). -/
def mcp_get_user_reading_stats (c : Collab) (u : PyValue) (time_range : PyValue) :
    Py PyValue := do
  let uname ← pyGetItem u (.str "username")
  c.get_user_reading_stats uname time_range

/-! ## The tool registry and schema generator -/

/-- The parameter type tags occurring in tool specs (`int`, `str`, `float`,
`bool` class objects in the source). -/
inductive PTag : Type where
  | pint : PTag
  | pstr : PTag
  | pfloat : PTag
  | pbool : PTag

/-- One `TOOLS` entry: bound handler, ordered parameter spec, description. -/
structure ToolInfo where
  func : PyDict → Py PyValue
  params : List (String × PTag)
  description : String

/-- Keyword binding of `tool_function(**filtered_arguments)` for `generate_audiobook`:
missing required parameters raise `TypeError` at the call, inside the
`try` of the router (line 505). -/
def fn_generate_audiobook (c : Collab) (u : PyValue) (args : PyDict) : Py PyValue := do
  checkRequired "generate_audiobook" ["book_id", "library_type"] args
  generate_audiobook c u ((args.find? "book_id").getD .none) ((args.find? "library_type").getD .none)

/-- Keyword binding of `tool_function(**filtered_arguments)` for `get_audiobook_generation_status`:
missing required parameters raise `TypeError` at the call, inside the
`try` of the router (line 505). -/
def fn_get_audiobook_generation_status (c : Collab) (u : PyValue) (args : PyDict) : Py PyValue := do
  checkRequired "get_audiobook_generation_status" ["task_id"] args
  get_audiobook_generation_status c u ((args.find? "task_id").getD .none)

/-- Keyword binding of `tool_function(**filtered_arguments)` for `get_audiobook_status_by_book`:
missing required parameters raise `TypeError` at the call, inside the
`try` of the router (line 505). -/
def fn_get_audiobook_status_by_book (c : Collab) (u : PyValue) (args : PyDict) : Py PyValue := do
  checkRequired "get_audiobook_status_by_book" ["book_id", "library_type"] args
  get_audiobook_status_by_book c u ((args.find? "book_id").getD .none) ((args.find? "library_type").getD .none)

/-- Keyword binding of `tool_function(**filtered_arguments)` for `search_calibre_books`:
missing required parameters raise `TypeError` at the call, inside the
`try` of the router (line 505). -/
def fn_search_calibre_books (c : Collab) (u : PyValue) (args : PyDict) : Py PyValue := do
  checkRequired "search_calibre_books" ["search_expression"] args
  search_calibre_books c ((args.find? "search_expression").getD .none) ((args.find? "limit").getD (.int 20))

/-- Keyword binding of `tool_function(**filtered_arguments)` for `get_recent_books`:
missing required parameters raise `TypeError` at the call, inside the
`try` of the router (line 505). -/
def fn_get_recent_books (c : Collab) (u : PyValue) (args : PyDict) : Py PyValue := do
  checkRequired "get_recent_books" ["library_type"] args
  get_recent_books c u ((args.find? "library_type").getD .none) ((args.find? "limit").getD (.int 20))

/-- Keyword binding of `tool_function(**filtered_arguments)` for `get_book_details`:
missing required parameters raise `TypeError` at the call, inside the
`try` of the router (line 505). -/
def fn_get_book_details (c : Collab) (u : PyValue) (args : PyDict) : Py PyValue := do
  checkRequired "get_book_details" ["library_type", "book_id"] args
  get_book_details c u ((args.find? "library_type").getD .none) ((args.find? "book_id").getD .none)

/-- Keyword binding of `tool_function(**filtered_arguments)` for `push_calibre_book_to_anx`:
missing required parameters raise `TypeError` at the call, inside the
`try` of the router (line 505). -/
def fn_push_calibre_book_to_anx (c : Collab) (u : PyValue) (args : PyDict) : Py PyValue := do
  checkRequired "push_calibre_book_to_anx" ["book_id"] args
  push_calibre_book_to_anx c u ((args.find? "book_id").getD .none)

/-- Keyword binding of `tool_function(**filtered_arguments)` for `push_anx_book_to_calibre`:
missing required parameters raise `TypeError` at the call, inside the
`try` of the router (line 505). -/
def fn_push_anx_book_to_calibre (c : Collab) (u : PyValue) (args : PyDict) : Py PyValue := do
  checkRequired "push_anx_book_to_calibre" ["book_id"] args
  push_anx_book_to_calibre c u ((args.find? "book_id").getD .none)

/-- Keyword binding of `tool_function(**filtered_arguments)` for `send_calibre_book_to_kindle`:
missing required parameters raise `TypeError` at the call, inside the
`try` of the router (line 505). -/
def fn_send_calibre_book_to_kindle (c : Collab) (u : PyValue) (args : PyDict) : Py PyValue := do
  checkRequired "send_calibre_book_to_kindle" ["book_id"] args
  send_calibre_book_to_kindle c u ((args.find? "book_id").getD .none)

/-- Keyword binding of `tool_function(**filtered_arguments)` for `get_table_of_contents`:
missing required parameters raise `TypeError` at the call, inside the
`try` of the router (line 505). -/
def fn_get_table_of_contents (c : Collab) (u : PyValue) (args : PyDict) : Py PyValue := do
  checkRequired "get_table_of_contents" ["library_type", "book_id"] args
  get_table_of_contents c u ((args.find? "library_type").getD .none) ((args.find? "book_id").getD .none)

/-- Keyword binding of `tool_function(**filtered_arguments)` for `get_chapter_content`:
missing required parameters raise `TypeError` at the call, inside the
`try` of the router (line 505). -/
def fn_get_chapter_content (c : Collab) (u : PyValue) (args : PyDict) : Py PyValue := do
  checkRequired "get_chapter_content" ["library_type", "book_id", "chapter_number"] args
  get_chapter_content c u ((args.find? "library_type").getD .none) ((args.find? "book_id").getD .none) ((args.find? "chapter_number").getD .none)

/-- Keyword binding of `tool_function(**filtered_arguments)` for `get_entire_book_content`:
missing required parameters raise `TypeError` at the call, inside the
`try` of the router (line 505). -/
def fn_get_entire_book_content (c : Collab) (u : PyValue) (args : PyDict) : Py PyValue := do
  checkRequired "get_entire_book_content" ["library_type", "book_id"] args
  get_entire_book_content c u ((args.find? "library_type").getD .none) ((args.find? "book_id").getD .none)

/-- Keyword binding of `tool_function(**filtered_arguments)` for `get_word_count_statistics`:
missing required parameters raise `TypeError` at the call, inside the
`try` of the router (line 505). -/
def fn_get_word_count_statistics (c : Collab) (u : PyValue) (args : PyDict) : Py PyValue := do
  checkRequired "get_word_count_statistics" ["library_type", "book_id"] args
  get_word_count_statistics c u ((args.find? "library_type").getD .none) ((args.find? "book_id").getD .none)

/-- Keyword binding of `tool_function(**filtered_arguments)` for `mcp_get_user_reading_stats`:
missing required parameters raise `TypeError` at the call, inside the
`try` of the router (line 505). -/
def fn_mcp_get_user_reading_stats (c : Collab) (u : PyValue) (args : PyDict) : Py PyValue := do
  checkRequired "mcp_get_user_reading_stats" ["time_range"] args
  mcp_get_user_reading_stats c u ((args.find? "time_range").getD .none)

/-- The `TOOLS` registry (lines 320–398), an insertion-ordered dict from
tool name to descriptor; Python 3.7+ dicts preserve insertion order. -/
def TOOLS (c : Collab) (u : PyValue) : List (String × ToolInfo) := [
   ("generate_audiobook",
    { func := fn_generate_audiobook c u,
      params := [("book_id", PTag.pint), ("library_type", PTag.pstr)],
      description := "为指定的书籍生成有声书。library_type 必须是 " ++ squote ++ "anx" ++ squote ++ " (用户正在看的书库) 或 " ++ squote ++ "calibre" ++ squote ++ " (公共书库)。" }),
   ("get_audiobook_generation_status",
    { func := fn_get_audiobook_generation_status c u,
      params := [("task_id", PTag.pstr)],
      description := "通过任务 ID 获取有声书生成任务的状态和进度。" }),
   ("get_audiobook_status_by_book",
    { func := fn_get_audiobook_status_by_book c u,
      params := [("book_id", PTag.pint), ("library_type", PTag.pstr)],
      description := "通过书籍 ID 和库类型获取最新的有声书任务状态。library_type: " ++ squote ++ "anx" ++ squote ++ " (用户正在看的书库), " ++ squote ++ "calibre" ++ squote ++ " (公共书库)。" }),
   ("search_calibre_books",
    { func := fn_search_calibre_books c u,
      params := [("search_expression", PTag.pstr), ("limit", PTag.pint)],
      description := "使用 Calibre 的搜索语法搜索书籍。支持简单的模糊搜索和高级的字段查询。\n基础搜索 (模糊匹配): 直接提供关键词即可。例如: \"三体\"\n高级搜索 (构建复杂查询):\n- 字段搜索: field_name:\"value\"。例如: title:\"Pride and Prejudice\" 或 author:Austen。常用字段: title, authors, tags, series, publisher, pubdate, comments, rating, date, series, size, formats, last_modified。自定义字段示例(库，已读日期): #library:\"My Lib\", #readdate:>=2023-01-15 (以 # 开头)。\n- 布尔运算符: 使用 AND, OR, NOT (或 &, |, !) 组合条件。例如: tags:fiction AND tags:classic 或 title:history NOT author:Jones。\n- 比较运算符: 对数字或日期字段使用 <, >, <=, >=, =。例如: pubdate:>2020-01-01 或 rating:>=4。\n- 通配符: * 匹配任意字符序列, ? 匹配单个字符。例如: title:hist* 或 author:Sm?th。\n- 正则表达式: field_name:~\"regex\"。例如: title:~\"war.*peace\"。" }),
   ("get_recent_books",
    { func := fn_get_recent_books c u,
      params := [("library_type", PTag.pstr), ("limit", PTag.pint)],
      description := "获取指定书库中最近添加的书籍列表。library_type: " ++ squote ++ "anx" ++ squote ++ " (用户正在看的书库), " ++ squote ++ "calibre" ++ squote ++ " (公共书库)。" }),
   ("get_book_details",
    { func := fn_get_book_details c u,
      params := [("library_type", PTag.pstr), ("book_id", PTag.pint)],
      description := "获取指定书库中某本书的详细信息。library_type: " ++ squote ++ "anx" ++ squote ++ " (用户正在看的书库), " ++ squote ++ "calibre" ++ squote ++ " (公共书库)。" }),
   ("push_calibre_book_to_anx",
    { func := fn_push_calibre_book_to_anx c u,
      params := [("book_id", PTag.pint)],
      description := "将指定的 Calibre 书籍推送到当前用户的 Anx 书库（正在看的书库）。" }),
   ("push_anx_book_to_calibre",
    { func := fn_push_anx_book_to_calibre c u,
      params := [("book_id", PTag.pint)],
      description := "将指定的 Anx 书籍（正在看的书库）上传到公共 Calibre 书库。" }),
   ("send_calibre_book_to_kindle",
    { func := fn_send_calibre_book_to_kindle c u,
      params := [("book_id", PTag.pint)],
      description := "将指定的 Calibre 书籍发送到当前用户配置的 Kindle 邮箱。" }),
   ("get_table_of_contents",
    { func := fn_get_table_of_contents c u,
      params := [("library_type", PTag.pstr), ("book_id", PTag.pint)],
      description := "获取指定书库中书籍的目录章节列表。如果书籍不是 EPUB 格式，会自动尝试转换。library_type: " ++ squote ++ "anx" ++ squote ++ " (用户正在看的书库), " ++ squote ++ "calibre" ++ squote ++ " (公共书库)。" }),
   ("get_chapter_content",
    { func := fn_get_chapter_content c u,
      params := [("library_type", PTag.pstr), ("book_id", PTag.pint), ("chapter_number", PTag.pint)],
      description := "获取指定书库中书籍的指定章节完整内容。如果书籍不是 EPUB 格式，会自动尝试转换。library_type: " ++ squote ++ "anx" ++ squote ++ " (用户正在看的书库), " ++ squote ++ "calibre" ++ squote ++ " (公共书库)。" }),
   ("get_entire_book_content",
    { func := fn_get_entire_book_content c u,
      params := [("library_type", PTag.pstr), ("book_id", PTag.pint)],
      description := "获取指定书库中书籍的完整纯文本内容（保留段落格式）。library_type: " ++ squote ++ "anx" ++ squote ++ " (用户正在看的书库), " ++ squote ++ "calibre" ++ squote ++ " (公共书库)。" }),
   ("get_word_count_statistics",
    { func := fn_get_word_count_statistics c u,
      params := [("library_type", PTag.pstr), ("book_id", PTag.pint)],
      description := "获取指定书库中书籍的字数统计信息（分章节和总计）。library_type: " ++ squote ++ "anx" ++ squote ++ " (用户正在看的书库), " ++ squote ++ "calibre" ++ squote ++ " (公共书库)。" }),
   ("get_user_reading_stats",
    { func := fn_mcp_get_user_reading_stats c u,
      params := [("time_range", PTag.pstr)],
      description := "获取当前用户的阅读统计信息。time_range 是必需参数，可以是 \"all\", \"today\", \"this_week\", \"this_month\", \"this_year\", 最近的天数（如 \"7\", \"30\"）, 或日期范围 \"YYYY-MM-DD:YYYY-MM-DD\"。" })]

/-- Registry lookup `TOOLS[tool_name]` (first — unique — matching key). -/
def lookupTool (c : Collab) (u : PyValue) (name : String) : Option ToolInfo :=
  ((TOOLS c u).find? (fun p => p.1 == name)).map Prod.snd

/-- `tool_name in TOOLS` for an arbitrary value: unhashable values raise
`TypeError`, hashable non-strings are simply absent. -/
def toolsContains (c : Collab) (u : PyValue) (name : PyValue) : Py Bool :=
  if pyHashable name then
    match name with
    | .str s => .ok (lookupTool c u s).isSome
    | _ => .ok false
  else
    .error (typeErr ("unhashable type: " ++ quoteName (pyTypeName name)))

/-- The source's type mapping in `get_input_schema` (lines 403–410):
`json_type = "string"` as default, overridden for `int`/`float`/`bool`. -/
def jsonTypeOf (t : PTag) : String :=
  match t with
  | .pint => "integer"
  | .pfloat => "number"
  | .pbool => "boolean"
  | _ => "string"

/-- `get_input_schema(params)` (lines 400–415). -/
def get_input_schema (params : List (String × PTag)) : PyValue :=
  .dict (PyDict.ofList
    [("type", .str "object"),
     ("properties", .dict (PyDict.ofList (params.map fun p =>
       (p.1, PyValue.dict (PyDict.ofList
         [("type", .str (jsonTypeOf p.2)), ("description", .str "")]))))),
     ("required", .list (PyList.ofList (params.map fun p => PyValue.str p.1)))])

/-! ## The auth gate and the JSON-RPC method router -/

/-- The persistence read by `token_required`: the `mcp_tokens` table
(token → user_id) and the `users` table (id → row, rows modelled as dicts). -/
structure Db where
  mcp_tokens : List (String × Int)
  users : List (Int × PyValue)

/-- `SELECT * FROM mcp_tokens WHERE token = ?` (first matching row). -/
def tokenLookup (db : Db) (t : String) : Option Int :=
  (db.mcp_tokens.find? (fun p => p.1 == t)).map Prod.snd

/-- `SELECT * FROM users WHERE id = ?` (first matching row). -/
def userLookup (db : Db) (uid : Int) : Option PyValue :=
  (db.users.find? (fun p => p.1 == uid)).map Prod.snd

/-- One inbound POST to `/mcp`: the `token` query parameter and the result
of JSON-parsing the body (`none` when the body is not valid JSON). -/
structure MCPRequest where
  token : Option String
  body : Option PyValue

/-- A transport response: status code and optional JSON body (`none` is the
empty body of the `"", 204` notification response). -/
structure HttpResponse where
  status : Nat
  body : Option PyValue

/-- A JSON-RPC success envelope as the source builds it (key order
`jsonrpc`, `id`, `result`). -/
def jok (id result : PyValue) : PyValue :=
  .dict (PyDict.ofList [("jsonrpc", .str "2.0"), ("id", id), ("result", result)])

/-- A JSON-RPC error envelope as the source builds it (key order `jsonrpc`,
`error`, `id`). -/
def jerr (code : Int) (msg : String) (id : PyValue) : PyValue :=
  .dict (PyDict.ofList
    [("jsonrpc", .str "2.0"),
     ("error", .dict (PyDict.ofList [("code", .int code), ("message", .str msg)])),
     ("id", id)])

/-- `token_required` (lines 29–53): resolve the `token` query parameter to
a user row, or short-circuit with a 401/403 JSON error. -/
def token_required (db : Db) (token : Option String) : Except HttpResponse PyValue :=
  match token with
  | Option.none => .error ⟨401, some (.dict (.cons "error" (.str "Missing token") .nil))⟩
  | some t =>
    if t = "" then .error ⟨401, some (.dict (.cons "error" (.str "Missing token") .nil))⟩
    else
      match tokenLookup db (pyStrip t) with
      | Option.none => .error ⟨403, some (.dict (.cons "error" (.str "Invalid token") .nil))⟩
      | some uid =>
        match userLookup db uid with
        | Option.none =>
          .error ⟨403, some (.dict (.cons "error" (.str "User not found for token") .nil))⟩
        | some user => .ok user

/-- The `initialize` result literal (lines 432–447). -/
def initializeResult : PyValue :=
  .dict (PyDict.ofList
    [("protocolVersion", .str "2024-11-05"),
     ("capabilities", .dict (PyDict.ofList
       [("tools", .dict (.cons "listChanged" (.bool false) .nil)),
        ("resources", .dict (PyDict.ofList
          [("subscribe", .bool false), ("listChanged", .bool false)])),
        ("prompts", .dict .nil)])),
     ("serverInfo", .dict (PyDict.ofList
       [("name", .str "anx-calibre-manager"), ("version", .str "0.1.0")]))])

/-- The `tools/list` payload (line 460): each registry entry as
`{name, description, inputSchema}` in registry order. -/
def toolsListValue (c : Collab) (u : PyValue) : PyValue :=
  .list (PyList.ofList ((TOOLS c u).map fun p =>
    .dict (PyDict.ofList
      [("name", .str p.1), ("description", .str p.2.description),
       ("inputSchema", get_input_schema p.2.params)])))

/-- `TOOLS[tool_name]` on an arbitrary value (raises `KeyError` on missing
keys and `TypeError` on unhashable ones, like a dict subscript). -/
def toolsGetItem (c : Collab) (u : PyValue) (name : PyValue) : Py ToolInfo :=
  match name with
  | .str s =>
    match lookupTool c u s with
    | some info => .ok info
    | Option.none => .error (keyErr s)
  | _ =>
    if pyHashable name then .error ⟨pyRepr name⟩
    else .error (typeErr ("unhashable type: " ++ quoteName (pyTypeName name)))

/-- The argument filtering of line 502:
`{k: v for k, v in arguments.items() if k in expected_params}`. -/
def filterArgs (spec : List (String × PTag)) (args : PyDict) : PyDict :=
  args.keep (fun k => (spec.map Prod.fst).contains k)

/-- The `try`/`except` around the tool invocation (lines 504–518): a
returned value is serialized with `json.dumps(..., indent=2,
ensure_ascii=False, default=str)` into a success payload with
`isError: False`; a raised exception becomes the
`Error executing tool {name}: {message}` payload with `isError: True`.
Both are 200 `result` envelopes, never JSON-RPC `error` objects. -/
def toolCallRespond (req_id : PyValue) (tool_name : String) (outcome : Py PyValue) :
    HttpResponse :=
  match outcome with
  | .ok result =>
    ⟨200, some (jok req_id (.dict (PyDict.ofList
      [("content", .list (PyList.ofList
        [.dict (PyDict.ofList [("type", .str "text"), ("text", .str (dumps result))])])),
       ("isError", .bool false)])))⟩
  | .error e =>
    ⟨200, some (jok req_id (.dict (PyDict.ofList
      [("content", .list (PyList.ofList
        [.dict (PyDict.ofList [("type", .str "text"),
          ("text", .str ("Error executing tool " ++ tool_name ++ ": " ++ e.msg))])])),
       ("isError", .bool true)])))⟩

/-- The `tools/call` branch (lines 490–518): name lookup, argument
filtering, and the invocation `try`/`except`. -/
def handleToolsCall (c : Collab) (u : PyValue) (params req_id : PyValue) : Py HttpResponse := do
  let tool_name ← pyDotGetD params "name" .none
  let arguments ← pyDotGetD params "arguments" (.dict .nil)
  let known ←
    if !(pyTruthy tool_name) then pure false
    else toolsContains c u tool_name
  if !known then
    return ⟨404, some (jerr (-32602) ("Unknown tool: " ++ pyStr tool_name) req_id)⟩
  let tool_info ← toolsGetItem c u tool_name
  let argPairs ← pyDotItems arguments
  let filtered_arguments := filterArgs tool_info.params argPairs
  return toolCallRespond req_id (pyStr tool_name) (tool_info.func filtered_arguments)

/-- The body of `mcp_endpoint` inside its `try` (lines 423–520), after
`request.get_json()` has produced `data`.  Dynamic-typing failures
propagate as `Py` errors to the outer `except`. -/
def routerCore (c : Collab) (u : PyValue) (data : PyValue) : Py HttpResponse := do
  let invalid ←
    if !(pyTruthy data) then pure true
    else do
      let mem ← pyContains data (.str "jsonrpc")
      if !mem then pure true
      else do
        let ver ← pyGetItem data (.str "jsonrpc")
        pure (!(pyEq ver (.str "2.0")))
  if invalid then
    return ⟨400, some (jerr (-32600) "Invalid Request" .none)⟩
  let req_id ← pyDotGetD data "id" .none
  let method ← pyDotGetD data "method" .none
  let params ← pyDotGetD data "params" (.dict .nil)
  if pyEq method (.str "initialize") then
    return ⟨200, some (jok req_id initializeResult)⟩
  if pyEq method (.str "notifications/initialized") then
    return ⟨204, Option.none⟩
  if pyEq method (.str "ping") then
    return ⟨200, some (jok req_id (.dict .nil))⟩
  if pyEq method (.str "tools/list") then
    return ⟨200, some (jok req_id (.dict (.cons "tools" (toolsListValue c u) .nil)))⟩
  else if pyEq method (.str "resources/templates/list") then
    return ⟨200, some (jok req_id (.dict (.cons "resourceTemplates" (.list .nil) .nil)))⟩
  else if pyEq method (.str "resources/list") then
    return ⟨200, some (jok req_id (.dict (.cons "resources" (.list .nil) .nil)))⟩
  else if pyEq method (.str "prompts/list") then
    return ⟨200, some (jok req_id (.dict (.cons "prompts" (.list .nil) .nil)))⟩
  else if pyEq method (.str "tools/call") then
    handleToolsCall c u params req_id
  else
    return ⟨404, some (jerr (-32601) "Method not found" req_id)⟩

/-- `str(werkzeug.exceptions.BadRequest())`: Flask's `request.get_json()`
raises `BadRequest` when the body is not valid JSON, and that exception is
caught by the outer `except` of `mcp_endpoint`. -/
def badRequestMsg : String :=
  "400 Bad Request: The browser (or proxy) sent a request that this server could not understand."

/-- `data = request.get_json()` (line 423). -/
def getJson : Option PyValue → Py PyValue
  | some v => .ok v
  | Option.none => .error ⟨badRequestMsg⟩

/-- `mcp_endpoint`'s `try`/`except` (lines 422–523): any exception escaping
the body becomes the `-32603` internal-error envelope with `id: None` and
status 500. -/
def mcp_router (c : Collab) (u : PyValue) (body : Option PyValue) : HttpResponse :=
  match (do routerCore c u (← getJson body) : Py HttpResponse) with
  | .ok r => r
  | .error e => ⟨500, some (jerr (-32603) ("Internal error: " ++ e.msg) .none)⟩

/-- The full endpoint: `@token_required` then `mcp_endpoint` (lines 418–420),
with the resolved user row attached as `g.user` before the router runs. -/
def mcp_endpoint (c : Collab) (db : Db) (req : MCPRequest) : HttpResponse :=
  match token_required db req.token with
  | .error resp => resp
  | .ok user => mcp_router c user req.body

/-- A stub collaborator assignment used to instantiate theorems at concrete
inputs: every external operation returns a fixed benign value. -/
def trivialCollab : Collab where
  get_calibre_books := fun _ _ _ => .ok (.list .nil, .none, .none)
  get_anx_books := fun _ => .ok (.list .nil)
  get_raw_calibre_book_details := fun _ => .ok .none
  get_raw_anx_book_details := fun _ _ => .ok .none
  push_calibre_to_anx_logic := fun _ _ => .ok .none
  send_to_kindle_logic := fun _ _ => .ok .none
  push_anx_to_calibre_logic := fun _ _ => .ok .none
  get_parsed_chapters := fun _ _ _ => .ok []
  count_words := fun _ => .ok (.int 0)
  get_latest_task_for_book := fun _ _ _ => .ok .none
  generate_audiobook_route_call := fun _ _ _ => .ok .none
  get_audiobook_task_by_id := fun _ => .ok .none
  get_user_reading_stats := fun _ _ => .ok (.dict .nil)

/-- A concrete user row used in witnesses. -/
def aliceRow : PyValue :=
  .dict (PyDict.ofList [("id", .int 1), ("username", .str "alice")])

/-- A second concrete user row used in witnesses. -/
def bobRow : PyValue :=
  .dict (PyDict.ofList [("id", .int 2), ("username", .str "bob")])

/-- A concrete token/user store used in witnesses. -/
def db0 : Db := ⟨[("tok1", 1), ("tok2", 2)], [(1, aliceRow), (2, bobRow)]⟩

example : mcp_endpoint trivialCollab db0
    ⟨some "tok1", some (.dict (PyDict.ofList
      [("jsonrpc", .str "2.0"), ("id", .int 7), ("method", .str "ping")]))⟩ =
    ⟨200, some (jok (.int 7) (.dict .nil))⟩ := rfl

example : mcp_endpoint trivialCollab db0
    ⟨some "tok1", some (.dict (PyDict.ofList
      [("jsonrpc", .str "2.0"), ("id", .int 3), ("method", .str "tools/call"),
       ("params", .dict (PyDict.ofList
         [("name", .str "get_recent_books"),
          ("arguments", .dict (.cons "library_type" (.str "zzz") .nil))]))]))⟩ =
    ⟨200, some (jok (.int 3) (.dict (PyDict.ofList
      [("content", .list (PyList.ofList
        [.dict (PyDict.ofList [("type", .str "text"),
          ("text", .str (dumps invalidLibraryDict))])])),
       ("isError", .bool false)])))⟩ := rfl

/-! ## Bridging lemmas for symbolic evaluation of the router -/

@[simp] theorem py_bind_ok {α β : Type} (a : α) (f : α → Py β) :
    ((Except.ok a : Py α) >>= f) = f a := rfl

@[simp] theorem py_bind_err {α β : Type} (e : PyErr) (f : α → Py β) :
    ((Except.error e : Py α) >>= f) = .error e := rfl

@[simp] theorem py_map_ok {α β : Type} (a : α) (f : α → β) :
    (f <$> (Except.ok a : Py α)) = .ok (f a) := rfl

@[simp] theorem py_map_err {α β : Type} (e : PyErr) (f : α → β) :
    (f <$> (Except.error e : Py α)) = .error e := rfl

@[simp] theorem py_pure_eq {α : Type} (a : α) : (pure a : Py α) = .ok a := rfl

theorem pyTruthy_dict_find (d : PyDict) (k : String) (v : PyValue)
    (h : d.find? k = some v) : pyTruthy (.dict d) = true := by
  cases d with
  | nil => simp [PyDict.find?] at h
  | cons a b rest => rfl

theorem dictContains_of_find :
    ∀ (d : PyDict) (k : String) (v : PyValue),
      d.find? k = some v → pyDictContains d (.str k) = true
  | .nil, k, v, h => by simp [PyDict.find?] at h
  | .cons a b rest, k, v, h => by
    by_cases hak : a = k
    · subst hak
      simp [pyDictContains, PyDict.keys, List.any_cons, pyEq]
    · rw [PyDict.find?, if_neg hak] at h
      have hrec := dictContains_of_find rest k v h
      simp only [pyDictContains, PyDict.keys, List.any_cons] at hrec ⊢
      simp [hrec]

theorem dictContains_of_find_none :
    ∀ (d : PyDict) (k : String),
      d.find? k = Option.none → pyDictContains d (.str k) = false
  | .nil, k, _ => rfl
  | .cons a b rest, k, h => by
    by_cases hak : a = k
    · subst hak
      rw [PyDict.find?, if_pos rfl] at h
      cases h
    · rw [PyDict.find?, if_neg hak] at h
      have hrec := dictContains_of_find_none rest k h
      simp only [pyDictContains, PyDict.keys, List.any_cons] at hrec ⊢
      have hne : pyEq (.str k) (.str a) = false := by
        simp [pyEq]
        exact fun hh => hak hh.symm
      simp [hne, hrec]

/-- A JSON-RPC response envelope: version `"2.0"`, an `id` member, and
exactly one of `result`/`error`. -/
def isJsonRpcEnvelope (v : PyValue) : Bool :=
  match v with
  | .dict d =>
    (match d.find? "jsonrpc" with
     | some (.str s) => s == "2.0"
     | _ => false) &&
    (d.find? "id").isSome &&
    ((d.find? "result").isSome != (d.find? "error").isSome)
  | _ => false

/-- A response carrying a full JSON-RPC envelope whose `id` is `null`. -/
def respEnvNullId (r : HttpResponse) : Bool :=
  match r.body with
  | some v =>
    isJsonRpcEnvelope v &&
    (match v with
     | .dict d =>
       (match d.find? "id" with
        | some .none => true
        | _ => false)
     | _ => false)
  | Option.none => false

theorem respEnvNullId_jok (st : Nat) (r : PyValue) :
    respEnvNullId ⟨st, some (jok .none r)⟩ = true := by
  simp [respEnvNullId, isJsonRpcEnvelope, jok, PyDict.ofList, PyDict.find?]

theorem respEnvNullId_jerr (st : Nat) (code : Int) (msg : String) :
    respEnvNullId ⟨st, some (jerr code msg .none)⟩ = true := by
  simp [respEnvNullId, isJsonRpcEnvelope, jerr, PyDict.ofList, PyDict.find?]

theorem tc_str (c : Collab) (u : PyValue) (nm : String) :
    toolsContains c u (.str nm) = .ok (lookupTool c u nm).isSome := rfl

theorem respEnvNullId_toolCallRespond (s : String) (o : Py PyValue) :
    respEnvNullId (toolCallRespond .none s o) = true := by
  cases o with
  | ok r => exact respEnvNullId_jok _ _
  | error e => exact respEnvNullId_jok _ _

theorem handleToolsCall_envelope (c : Collab) (u : PyValue) (params : PyValue) :
    (∃ r, handleToolsCall c u params .none = .ok r ∧ respEnvNullId r = true) ∨
    (∃ e, handleToolsCall c u params .none = .error e) := by
  cases params with
  | dict pp =>
    by_cases htr : pyTruthy ((pp.find? "name").getD .none) = true
    · cases hnm : (pp.find? "name").getD .none with
      | none => rw [hnm] at htr; simp [pyTruthy] at htr
      | bool b =>
        rw [hnm] at htr
        left
        refine ⟨⟨404, some (jerr (-32602) ("Unknown tool: " ++ pyStr (.bool b)) .none)⟩,
          ?_, respEnvNullId_jerr _ _ _⟩
        simp [handleToolsCall, pyDotGetD, hnm, htr,
          show toolsContains c u (.bool b) = .ok false from rfl]
      | int n =>
        rw [hnm] at htr
        left
        refine ⟨⟨404, some (jerr (-32602) ("Unknown tool: " ++ pyStr (.int n)) .none)⟩,
          ?_, respEnvNullId_jerr _ _ _⟩
        simp [handleToolsCall, pyDotGetD, hnm, htr,
          show toolsContains c u (.int n) = .ok false from rfl]
      | obj s2 =>
        rw [hnm] at htr
        left
        refine ⟨⟨404, some (jerr (-32602) ("Unknown tool: " ++ pyStr (.obj s2)) .none)⟩,
          ?_, respEnvNullId_jerr _ _ _⟩
        simp [handleToolsCall, pyDotGetD, hnm, htr,
          show toolsContains c u (.obj s2) = .ok false from rfl]
      | list xs =>
        rw [hnm] at htr
        right
        refine ⟨typeErr ("unhashable type: " ++ quoteName "list"), ?_⟩
        simp [handleToolsCall, pyDotGetD, hnm, htr, toolsContains, pyHashable, pyTypeName]
      | dict dd =>
        rw [hnm] at htr
        right
        refine ⟨typeErr ("unhashable type: " ++ quoteName "dict"), ?_⟩
        simp [handleToolsCall, pyDotGetD, hnm, htr, toolsContains, pyHashable, pyTypeName]
      | str nm =>
        rw [hnm] at htr
        cases hlk : lookupTool c u nm with
        | none =>
          left
          refine ⟨⟨404, some (jerr (-32602) ("Unknown tool: " ++ pyStr (.str nm)) .none)⟩,
            ?_, respEnvNullId_jerr _ _ _⟩
          simp [handleToolsCall, pyDotGetD, hnm, htr, tc_str, hlk]
        | some info =>
          cases harg : (pp.find? "arguments").getD (.dict .nil) with
          | dict aa =>
            left
            refine ⟨toolCallRespond .none (pyStr (.str nm))
              (info.func (filterArgs info.params aa)),
              ?_, respEnvNullId_toolCallRespond _ _⟩
            simp [handleToolsCall, pyDotGetD, hnm, htr, tc_str, hlk, harg,
              toolsGetItem, pyDotItems]
          | none =>
            right
            refine ⟨attrErr (pyTypeName .none) "items", ?_⟩
            simp [handleToolsCall, pyDotGetD, hnm, htr, tc_str, hlk, harg,
              toolsGetItem, pyDotItems]
          | bool b =>
            right
            refine ⟨attrErr (pyTypeName (.bool b)) "items", ?_⟩
            simp [handleToolsCall, pyDotGetD, hnm, htr, tc_str, hlk, harg,
              toolsGetItem, pyDotItems]
          | int n =>
            right
            refine ⟨attrErr (pyTypeName (.int n)) "items", ?_⟩
            simp [handleToolsCall, pyDotGetD, hnm, htr, tc_str, hlk, harg,
              toolsGetItem, pyDotItems]
          | str s3 =>
            right
            refine ⟨attrErr (pyTypeName (.str s3)) "items", ?_⟩
            simp [handleToolsCall, pyDotGetD, hnm, htr, tc_str, hlk, harg,
              toolsGetItem, pyDotItems]
          | list xs =>
            right
            refine ⟨attrErr (pyTypeName (.list xs)) "items", ?_⟩
            simp [handleToolsCall, pyDotGetD, hnm, htr, tc_str, hlk, harg,
              toolsGetItem, pyDotItems]
          | obj s3 =>
            right
            refine ⟨attrErr (pyTypeName (.obj s3)) "items", ?_⟩
            simp [handleToolsCall, pyDotGetD, hnm, htr, tc_str, hlk, harg,
              toolsGetItem, pyDotItems]
    · rw [Bool.not_eq_true] at htr
      left
      refine ⟨⟨404, some (jerr (-32602)
        ("Unknown tool: " ++ pyStr ((pp.find? "name").getD .none)) .none)⟩,
        ?_, respEnvNullId_jerr _ _ _⟩
      simp [handleToolsCall, pyDotGetD, htr]
  | none =>
    right
    exact ⟨attrErr (pyTypeName .none) "get", by simp [handleToolsCall, pyDotGetD]⟩
  | bool b =>
    right
    exact ⟨attrErr (pyTypeName (.bool b)) "get", by simp [handleToolsCall, pyDotGetD]⟩
  | int n =>
    right
    exact ⟨attrErr (pyTypeName (.int n)) "get", by simp [handleToolsCall, pyDotGetD]⟩
  | str s2 =>
    right
    exact ⟨attrErr (pyTypeName (.str s2)) "get", by simp [handleToolsCall, pyDotGetD]⟩
  | list xs =>
    right
    exact ⟨attrErr (pyTypeName (.list xs)) "get", by simp [handleToolsCall, pyDotGetD]⟩
  | obj s2 =>
    right
    exact ⟨attrErr (pyTypeName (.obj s2)) "get", by simp [handleToolsCall, pyDotGetD]⟩

/-! ## The claims -/

theorem pyEq_str (a b : String) : pyEq (.str a) (.str b) = (a == b) := rfl

/-- C8: for every pair of authenticated requests
`{jsonrpc:"2.0", method:"ping", id:N}` made under two different valid
principals, the responses are identical, namely
`{jsonrpc:"2.0", id:N, result:{}}` — the ping result does not depend on the
principal resolved by the auth gate. -/
theorem claim_C8 (c : Collab) (db1 db2 : Db) (req1 req2 : MCPRequest)
    (u1 u2 : PyValue) (d : PyDict) (n : Int)
    (ha1 : token_required db1 req1.token = .ok u1)
    (ha2 : token_required db2 req2.token = .ok u2)
    (hb1 : req1.body = some (.dict d)) (hb2 : req2.body = some (.dict d))
    (hjs : d.find? "jsonrpc" = some (.str "2.0"))
    (hm : d.find? "method" = some (.str "ping"))
    (hid : d.find? "id" = some (.int n)) :
    mcp_endpoint c db1 req1 = mcp_endpoint c db2 req2 ∧
    mcp_endpoint c db1 req1 = ⟨200, some (jok (.int n) (.dict .nil))⟩ := by
  have key : ∀ (u : PyValue),
      mcp_router c u (some (.dict d)) = ⟨200, some (jok (.int n) (.dict .nil))⟩ := by
    intro u
    have hmem : pyContains (.dict d) (.str "jsonrpc") = .ok true := by
      simp [pyContains, pyHashable, dictContains_of_find d _ _ hjs]
    simp [mcp_router, getJson, routerCore, pyTruthy_dict_find d _ _ hjs, hmem,
      pyGetItem, hjs, pyDotGetD, hm, hid, pyEq_str, pyEq]
  refine ⟨?_, ?_⟩
  · simp [mcp_endpoint, ha1, ha2, hb1, hb2, key]
  · simp [mcp_endpoint, ha1, hb1, key]

theorem lookupTool_ne_empty (c : Collab) (u : PyValue) (info : ToolInfo)
    (h : lookupTool c u "" = some info) : False := by
  simp [lookupTool, TOOLS, List.find?] at h

/-- C1: for every tools/call request naming a registered tool, if the tool's
handler raises an exception, the router still returns a JSON-RPC success
envelope (a `result`, never an `error` object, status 200) whose result is
`{content:[{type:"text", text:"Error executing tool {toolName}: {message}"}],
isError:true}`, with the tool's name and the exception's message in the text. -/
theorem claim_C1 (c : Collab) (u : PyValue) (d p rawArgs : PyDict)
    (name : String) (info : ToolInfo) (msg : String)
    (hjs : d.find? "jsonrpc" = some (.str "2.0"))
    (hm : d.find? "method" = some (.str "tools/call"))
    (hp : d.find? "params" = some (.dict p))
    (hname : p.find? "name" = some (.str name))
    (harg : (p.find? "arguments").getD (.dict .nil) = .dict rawArgs)
    (hlk : lookupTool c u name = some info)
    (hfail : info.func (filterArgs info.params rawArgs) = .error ⟨msg⟩) :
    mcp_router c u (some (.dict d)) =
      ⟨200, some (jok ((d.find? "id").getD .none) (.dict (PyDict.ofList
        [("content", .list (PyList.ofList [.dict (PyDict.ofList
          [("type", .str "text"),
           ("text", .str ("Error executing tool " ++ name ++ ": " ++ msg))])])),
         ("isError", .bool true)])))⟩ := by
  have hmem : pyContains (.dict d) (.str "jsonrpc") = .ok true := by
    simp [pyContains, pyHashable, dictContains_of_find d _ _ hjs]
  have hne : (name != "") = true := by
    rcases eq_or_ne name "" with rfl | hne
    · exact absurd hlk (fun h => lookupTool_ne_empty c u info h)
    · simp [hne]
  have htr : pyTruthy (.str name) = true := hne
  simp [mcp_router, getJson, routerCore, handleToolsCall,
    pyTruthy_dict_find d _ _ hjs, hmem, pyGetItem, hjs, pyDotGetD, hm, hp, hname,
    harg, pyEq_str, pyEq, htr, tc_str, hlk, toolsGetItem, pyDotItems,
    toolCallRespond, hfail, pyStr]

/-- The `code` member of a response's JSON-RPC `error` object, when present. -/
def respErrorCode (r : HttpResponse) : Option Int :=
  match r.body with
  | some (.dict d) =>
    (match d.find? "error" with
     | some (.dict ed) =>
       (match ed.find? "code" with
        | some (.int n) => some n
        | _ => Option.none)
     | _ => Option.none)
  | _ => Option.none

/-- C2 counterexample: a `tools/call` whose `params` carry a `name` that is
not a key of the registry — here the array `[1]` — does not produce the
`-32602` "Unknown tool" error the claim promises: `name in TOOLS` raises
`TypeError: unhashable type` and the router answers `-32603` with
status 500. -/
theorem claim_C2_counterexample :
    respErrorCode (mcp_router trivialCollab aliceRow (some (.dict (PyDict.ofList
      [("jsonrpc", .str "2.0"), ("id", .int 1), ("method", .str "tools/call"),
       ("params", .dict (.cons "name"
         (.list (.cons (.int 1) .nil)) .nil))])))) = some (-32603) ∧
    (mcp_router trivialCollab aliceRow (some (.dict (PyDict.ofList
      [("jsonrpc", .str "2.0"), ("id", .int 1), ("method", .str "tools/call"),
       ("params", .dict (.cons "name"
         (.list (.cons (.int 1) .nil)) .nil))])))).status = 500 ∧
    some (-32603 : Int) ≠ some (-32602 : Int) := by
  refine ⟨rfl, rfl, by decide⟩

/-- C2 (amended): for every tools/call whose `params` is a mapping carrying
no `name`, a falsy `name`, or a hashable `name` that is not a key of the
tool registry, the router responds with JSON-RPC error code `-32602` and
message `"Unknown tool: {name}"` (status 404), and no tool handler is
invoked — the response is a fixed envelope, the same for every collaborator
assignment.  (An unhashable `name` — an array or object — instead raises
inside the router and yields `-32603`, per the counterexample.) -/
theorem claim_C2 (c : Collab) (u : PyValue) (d p : PyDict)
    (hjs : d.find? "jsonrpc" = some (.str "2.0"))
    (hm : d.find? "method" = some (.str "tools/call"))
    (hp : d.find? "params" = some (.dict p))
    (hcond : pyTruthy ((p.find? "name").getD .none) = false ∨
      toolsContains c u ((p.find? "name").getD .none) = .ok false) :
    mcp_router c u (some (.dict d)) =
      ⟨404, some (jerr (-32602)
        ("Unknown tool: " ++ pyStr ((p.find? "name").getD .none))
        ((d.find? "id").getD .none))⟩ := by
  have hmem : pyContains (.dict d) (.str "jsonrpc") = .ok true := by
    simp [pyContains, pyHashable, dictContains_of_find d _ _ hjs]
  by_cases htr : pyTruthy ((p.find? "name").getD .none) = true
  · rcases hcond with hfalsy | hcont
    · rw [htr] at hfalsy
      cases hfalsy
    · simp [mcp_router, getJson, routerCore, handleToolsCall,
        pyTruthy_dict_find d _ _ hjs, hmem, pyGetItem, hjs, pyDotGetD, hm, hp,
        pyEq_str, pyEq, htr, hcont]
  · rw [Bool.not_eq_true] at htr
    simp [mcp_router, getJson, routerCore, handleToolsCall,
      pyTruthy_dict_find d _ _ hjs, hmem, pyGetItem, hjs, pyDotGetD, hm, hp,
      pyEq_str, pyEq, htr]

theorem find?_keep :
    ∀ (d : PyDict) (pred : String → Bool) (k : String), pred k = true →
      (d.keep pred).find? k = d.find? k
  | .nil, _, _, _ => rfl
  | .cons a b rest, pred, k, hk => by
    by_cases pa : pred a = true
    · by_cases hak : a = k
      · subst hak
        simp [PyDict.keep, pa, PyDict.find?]
      · simp [PyDict.keep, pa, PyDict.find?, hak, find?_keep rest pred k hk]
    · rw [Bool.not_eq_true] at pa
      have hak : a ≠ k := by
        intro hh
        subst hh
        rw [pa] at hk
        cases hk
      simp [PyDict.keep, pa, PyDict.find?, hak, find?_keep rest pred k hk]

/-- C3: for every tools/call on a registered tool with any raw argument
mapping, the handler is invoked with exactly the restriction of the raw
arguments to the keys of the tool's parameter spec — every key not in the
spec is dropped silently, and the response is entirely determined by the
handler's outcome on that restriction: no presence or type check runs
before the handler (the theorem has no hypothesis at all about the
contents of `rawArgs`). -/
theorem claim_C3 (c : Collab) (u : PyValue) (d p rawArgs : PyDict)
    (name : String) (info : ToolInfo)
    (hjs : d.find? "jsonrpc" = some (.str "2.0"))
    (hm : d.find? "method" = some (.str "tools/call"))
    (hp : d.find? "params" = some (.dict p))
    (hname : p.find? "name" = some (.str name))
    (harg : (p.find? "arguments").getD (.dict .nil) = .dict rawArgs)
    (hlk : lookupTool c u name = some info) :
    mcp_router c u (some (.dict d)) =
      toolCallRespond ((d.find? "id").getD .none) name
        (info.func (rawArgs.keep
          (fun k => (info.params.map Prod.fst).contains k))) := by
  have hmem : pyContains (.dict d) (.str "jsonrpc") = .ok true := by
    simp [pyContains, pyHashable, dictContains_of_find d _ _ hjs]
  have hne : (name != "") = true := by
    rcases eq_or_ne name "" with rfl | hne
    · exact absurd hlk (fun h => lookupTool_ne_empty c u info h)
    · simp [hne]
  have htr : pyTruthy (.str name) = true := hne
  have main : mcp_router c u (some (.dict d)) =
      toolCallRespond ((d.find? "id").getD .none) (pyStr (.str name))
        (info.func (filterArgs info.params rawArgs)) := by
    simp [mcp_router, getJson, routerCore, handleToolsCall,
      pyTruthy_dict_find d _ _ hjs, hmem, pyGetItem, hjs, pyDotGetD, hm, hp, hname,
      harg, pyEq_str, pyEq, htr, tc_str, hlk, toolsGetItem, pyDotItems]
  rw [main]
  rfl


example : dumps (.dict (.cons "a" (.int 1) .nil)) =
    String.mk (lbraceC :: '\n' :: ("  ".data ++ "\"a\": 1".data ++ '\n' :: [rbraceC])) := by
  decide

example : parseJson (dumps (.dict (.cons "a"
    (.list (.cons (.int 1) (.cons (.dict (.cons "b" .none .nil)) .nil)))
    (.cons "c" (.str "x") .nil)))) =
  some (.dict (.cons "a"
    (.list (.cons (.int 1) (.cons (.dict (.cons "b" .none .nil)) .nil)))
    (.cons "c" (.str "x") .nil))) := rfl

example : parseJson (dumps (.list (.cons (.int (-37)) (.cons (.str ("q\"\\微\n" ++ String.singleton (Char.ofNat 7))) .nil)))) =
  some (.list (.cons (.int (-37)) (.cons (.str ("q\"\\微\n" ++ String.singleton (Char.ofNat 7))) .nil))) := rfl


/-- Concrete request dictionaries and tool infos used by the witnesses. -/
def rawC1 : PyDict := .cons "library_type" (.str "calibre") .nil

def pC1 : PyDict := PyDict.ofList
  [("name", .str "get_book_details"), ("arguments", .dict rawC1)]

def dC1 : PyDict := PyDict.ofList
  [("jsonrpc", .str "2.0"), ("id", .int 5), ("method", .str "tools/call"),
   ("params", .dict pC1)]

def infoC1 : ToolInfo :=
  (lookupTool trivialCollab aliceRow "get_book_details").getD ⟨fun _ => .ok .none, [], ""⟩

def msgC1 : String :=
  "get_book_details() missing 1 required positional argument: " ++ quoteName "book_id"

theorem claim_C1_witness :
    mcp_router trivialCollab aliceRow (some (.dict dC1)) =
      ⟨200, some (jok ((dC1.find? "id").getD .none) (.dict (PyDict.ofList
        [("content", .list (PyList.ofList [.dict (PyDict.ofList
          [("type", .str "text"),
           ("text", .str ("Error executing tool " ++ "get_book_details" ++ ": " ++ msgC1))])])),
         ("isError", .bool true)])))⟩ :=
  claim_C1 trivialCollab aliceRow dC1 pC1 rawC1 "get_book_details" infoC1 msgC1
    rfl rfl rfl rfl rfl rfl rfl

def pC2 : PyDict := .cons "name" (.str "nope") .nil

def dC2 : PyDict := PyDict.ofList
  [("jsonrpc", .str "2.0"), ("id", .int 4), ("method", .str "tools/call"),
   ("params", .dict pC2)]

theorem claim_C2_witness :
    mcp_router trivialCollab aliceRow (some (.dict dC2)) =
      ⟨404, some (jerr (-32602)
        ("Unknown tool: " ++ pyStr ((pC2.find? "name").getD .none))
        ((dC2.find? "id").getD .none))⟩ :=
  claim_C2 trivialCollab aliceRow dC2 pC2 rfl rfl rfl (Or.inr rfl)

def rawC3 : PyDict := PyDict.ofList [("time_range", .str "all"), ("bogus", .int 1)]

def pC3 : PyDict := PyDict.ofList
  [("name", .str "get_user_reading_stats"), ("arguments", .dict rawC3)]

def dC3 : PyDict := PyDict.ofList
  [("jsonrpc", .str "2.0"), ("id", .int 2), ("method", .str "tools/call"),
   ("params", .dict pC3)]

def infoC3 : ToolInfo :=
  (lookupTool trivialCollab aliceRow "get_user_reading_stats").getD ⟨fun _ => .ok .none, [], ""⟩

theorem claim_C3_witness :
    mcp_router trivialCollab aliceRow (some (.dict dC3)) =
      toolCallRespond ((dC3.find? "id").getD .none) "get_user_reading_stats"
        (infoC3.func (rawC3.keep
          (fun k => (infoC3.params.map Prod.fst).contains k))) :=
  claim_C3 trivialCollab aliceRow dC3 pC3 rawC3 "get_user_reading_stats" infoC3
    rfl rfl rfl rfl rfl rfl

def dPing : PyDict := PyDict.ofList
  [("jsonrpc", .str "2.0"), ("method", .str "ping"), ("id", .int 3)]

theorem claim_C8_witness :
    mcp_endpoint trivialCollab db0 ⟨some "tok1", some (.dict dPing)⟩ =
      mcp_endpoint trivialCollab db0 ⟨some "tok2", some (.dict dPing)⟩ ∧
    mcp_endpoint trivialCollab db0 ⟨some "tok1", some (.dict dPing)⟩ =
      ⟨200, some (jok (.int 3) (.dict .nil))⟩ :=
  claim_C8 trivialCollab db0 db0 ⟨some "tok1", some (.dict dPing)⟩
    ⟨some "tok2", some (.dict dPing)⟩ aliceRow bobRow dPing 3 rfl rfl rfl rfl rfl rfl rfl


/-- The type-tag mapping exactly as the specification words it:
integer→"integer", number→"number", boolean→"boolean", anything else
(including string) →"string".  Written from the spec, to be compared with
the source's `jsonTypeOf`. -/
def specTypeName : PTag → String
  | .pint => "integer"
  | .pfloat => "number"
  | .pbool => "boolean"
  | _ => "string"

/-- The per-tool descriptor exactly as the specification words it:
`{name, description, inputSchema}` with `inputSchema` =
`{type:"object", properties, required}`, `required` listing every
parameter name, every property carrying an empty-string description and
the spec's type mapping.  Written from the spec, to be compared with the
source's `toolsListValue`/`get_input_schema`. -/
def specToolDescriptor (name : String) (info : ToolInfo) : PyValue :=
  .dict (PyDict.ofList
    [("name", .str name),
     ("description", .str info.description),
     ("inputSchema", .dict (PyDict.ofList
       [("type", .str "object"),
        ("properties", .dict (PyDict.ofList (info.params.map fun p =>
          (p.1, PyValue.dict (PyDict.ofList
            [("type", .str (specTypeName p.2)), ("description", .str "")]))))),
        ("required", .list (PyList.ofList (info.params.map fun p => PyValue.str p.1)))]))])

/-- C4: for every authenticated `tools/list` request, the response is the
200 success envelope whose result is `{tools: [...]}` listing exactly the
registered tools, in the registry's insertion order, each rendered as the
spec-side `specToolDescriptor` — so `required` lists every parameter name,
every property description is the empty string, and the source's type
mapping agrees with the spec's tag mapping on every tag. -/
theorem claim_C4 (c : Collab) (u : PyValue) (d : PyDict)
    (hjs : d.find? "jsonrpc" = some (.str "2.0"))
    (hm : d.find? "method" = some (.str "tools/list")) :
    mcp_router c u (some (.dict d)) =
      ⟨200, some (jok ((d.find? "id").getD .none)
        (.dict (.cons "tools"
          (.list (PyList.ofList ((TOOLS c u).map fun p => specToolDescriptor p.1 p.2)))
          .nil)))⟩ := by
  have hmem : pyContains (.dict d) (.str "jsonrpc") = .ok true := by
    simp [pyContains, pyHashable, dictContains_of_find d _ _ hjs]
  have htag : ∀ t : PTag, jsonTypeOf t = specTypeName t := by
    intro t
    cases t <;> rfl
  simp [mcp_router, getJson, routerCore, pyTruthy_dict_find d _ _ hjs, hmem,
    pyGetItem, hjs, pyDotGetD, hm, pyEq_str, pyEq, toolsListValue,
    specToolDescriptor, get_input_schema, htag]

def dC4 : PyDict := PyDict.ofList
  [("jsonrpc", .str "2.0"), ("id", .int 9), ("method", .str "tools/list")]

theorem claim_C4_witness :
    mcp_router trivialCollab aliceRow (some (.dict dC4)) =
      ⟨200, some (jok ((dC4.find? "id").getD .none)
        (.dict (.cons "tools"
          (.list (PyList.ofList ((TOOLS trivialCollab aliceRow).map
            fun p => specToolDescriptor p.1 p.2)))
          .nil)))⟩ :=
  claim_C4 trivialCollab aliceRow dC4 rfl rfl

/-- C5 counterexample: a request body that is valid JSON but not a mapping —
here the number `5` — is not answered with `-32600`/4xx as the claim
promises: `'jsonrpc' in 5` raises `TypeError`, so the router answers
`-32603` with status 500. -/
theorem claim_C5_counterexample :
    respErrorCode (mcp_router trivialCollab aliceRow (some (.int 5))) = some (-32603) ∧
    (mcp_router trivialCollab aliceRow (some (.int 5))).status = 500 ∧
    ¬ (400 ≤ (mcp_router trivialCollab aliceRow (some (.int 5))).status ∧
       (mcp_router trivialCollab aliceRow (some (.int 5))).status < 500) := by
  refine ⟨rfl, rfl, by decide⟩

/-- C5 (amended): for every request body that parses to a falsy value
(null, false, 0, the empty string, the empty array, the empty mapping), or
to any value in which the membership test `'jsonrpc' in data` succeeds with
a negative answer (a mapping without that key, an array with no element
equal to `"jsonrpc"`, a string not containing it), or to a mapping whose
`jsonrpc` member differs from `"2.0"`, the router responds before any
method dispatch with JSON-RPC error code `-32600`, message
"Invalid Request", transport status 400, and `id` null.  (A truthy body
that supports no membership test — a number, or `true` — instead raises
`TypeError` at the membership test and yields `-32603`/500, per the
counterexample.) -/
theorem claim_C5 (c : Collab) (u : PyValue) (body : PyValue)
    (hcond : pyTruthy body = false ∨
      pyContains body (.str "jsonrpc") = .ok false ∨
      ∃ d v, body = .dict d ∧ d.find? "jsonrpc" = some v ∧
        pyEq v (.str "2.0") = false) :
    mcp_router c u (some body) =
      ⟨400, some (jerr (-32600) "Invalid Request" .none)⟩ := by
  rcases hcond with hfalsy | hmem | ⟨d, v, rfl, hv, hne⟩
  · simp [mcp_router, getJson, routerCore, hfalsy]
  · by_cases htr : pyTruthy body = true
    · simp [mcp_router, getJson, routerCore, htr, hmem]
    · rw [Bool.not_eq_true] at htr
      simp [mcp_router, getJson, routerCore, htr]
  · have hmem : pyContains (.dict d) (.str "jsonrpc") = .ok true := by
      simp [pyContains, pyHashable, dictContains_of_find d _ _ hv]
    simp [mcp_router, getJson, routerCore, pyTruthy_dict_find d _ _ hv, hmem,
      pyGetItem, hv, hne]

theorem claim_C5_witness :
    (mcp_router trivialCollab aliceRow (some (.list (.cons (.int 1) .nil))) =
       ⟨400, some (jerr (-32600) "Invalid Request" .none)⟩) ∧
    (mcp_router trivialCollab aliceRow (some (.str "abc")) =
       ⟨400, some (jerr (-32600) "Invalid Request" .none)⟩) ∧
    (mcp_router trivialCollab aliceRow (some (.bool false)) =
       ⟨400, some (jerr (-32600) "Invalid Request" .none)⟩) ∧
    (mcp_router trivialCollab aliceRow (some (.dict (.cons "jsonrpc" (.str "1.0") .nil))) =
       ⟨400, some (jerr (-32600) "Invalid Request" .none)⟩) :=
  ⟨claim_C5 trivialCollab aliceRow (.list (.cons (.int 1) .nil)) (Or.inr (Or.inl rfl)),
   claim_C5 trivialCollab aliceRow (.str "abc") (Or.inr (Or.inl rfl)),
   claim_C5 trivialCollab aliceRow (.bool false) (Or.inl rfl),
   claim_C5 trivialCollab aliceRow (.dict (.cons "jsonrpc" (.str "1.0") .nil))
     (Or.inr (Or.inr ⟨.cons "jsonrpc" (.str "1.0") .nil, .str "1.0", rfl, rfl, rfl⟩))⟩

/-- C6: the auth gate distinguishes exactly three failure conditions before
any JSON-RPC processing — (1) no token (an absent parameter, or the empty
string Flask yields for `?token=`) answers 401 `Missing token`; (2) a
nonempty token that, whitespace-trimmed, is not in the token store answers
403 `Invalid token`; (3) a stored token whose user row no longer exists
answers 403 `User not found for token` — and on success the resolved user
row is the principal the router runs with.  Every store lookup is on the
trimmed token. -/
theorem claim_C6 (c : Collab) (db : Db) (body : Option PyValue) :
    (mcp_endpoint c db ⟨Option.none, body⟩ =
       ⟨401, some (.dict (.cons "error" (.str "Missing token") .nil))⟩ ∧
     mcp_endpoint c db ⟨some "", body⟩ =
       ⟨401, some (.dict (.cons "error" (.str "Missing token") .nil))⟩) ∧
    (∀ t, t ≠ "" → tokenLookup db (pyStrip t) = Option.none →
      mcp_endpoint c db ⟨some t, body⟩ =
        ⟨403, some (.dict (.cons "error" (.str "Invalid token") .nil))⟩) ∧
    (∀ t uid, t ≠ "" → tokenLookup db (pyStrip t) = some uid →
      userLookup db uid = Option.none →
      mcp_endpoint c db ⟨some t, body⟩ =
        ⟨403, some (.dict (.cons "error" (.str "User not found for token") .nil))⟩) ∧
    (∀ t uid user, t ≠ "" → tokenLookup db (pyStrip t) = some uid →
      userLookup db uid = some user →
      mcp_endpoint c db ⟨some t, body⟩ = mcp_router c user body) := by
  refine ⟨⟨rfl, rfl⟩, ?_, ?_, ?_⟩
  · intro t ht hlk
    simp [mcp_endpoint, token_required, ht, hlk]
  · intro t uid ht hlk hus
    simp [mcp_endpoint, token_required, ht, hlk, hus]
  · intro t uid user ht hlk hus
    simp [mcp_endpoint, token_required, ht, hlk, hus]

theorem claim_C6_witness :
    (mcp_endpoint trivialCollab db0 ⟨some " badtok ", Option.none⟩ =
       ⟨403, some (.dict (.cons "error" (.str "Invalid token") .nil))⟩) ∧
    (mcp_endpoint trivialCollab db0 ⟨some " tok1 ", some (.dict dPing)⟩ =
       mcp_router trivialCollab aliceRow (some (.dict dPing))) :=
  ⟨(claim_C6 trivialCollab db0 Option.none).2.1 " badtok " (by decide) rfl,
   (claim_C6 trivialCollab db0 (some (.dict dPing))).2.2.2 " tok1 " 1 aliceRow
     (by decide) rfl rfl⟩


/-- C7: serializing any representable handler result for the tools/call
text payload and parsing that text back recovers the original value
exactly; a value needing the `default=str` fallback (modelled by `.obj`,
carrying its `str()` rendering) serializes without raising and comes back
as that plain string. -/
theorem claim_C7 :
    (∀ v : PyValue, representable v = true → parseJson (dumps v) = some v) ∧
    (∀ s : String, parseJson (dumps (.obj s)) = some (.str s)) :=
  ⟨fun v h => parseJson_dumps v h, fun s => parseJson_dumps_obj s⟩

def vC7 : PyValue :=
  .dict (PyDict.ofList
    [("a", .list (PyList.ofList [.int 1, .str "x", .bool true, .none])),
     ("b", .dict (.cons "c" (.int (-2)) .nil))])

theorem claim_C7_witness :
    representable vC7 = true ∧
    parseJson (dumps vC7) = some vC7 ∧
    parseJson (dumps (.obj "plain")) = some (.str "plain") :=
  ⟨rfl, claim_C7.1 vC7 rfl, claim_C7.2 "plain"⟩

/-- C9: for every tools/call on `get_recent_books`, or on `get_book_details`
with a `book_id` supplied, whose `library_type` argument equals neither
`"calibre"` nor `"anx"`, the handler returns the Chinese error dictionary as
its normal value, so the router serializes it and responds with the success
payload `{content:[{type:"text", text:dumps(invalidLibraryDict)}],
isError:false}` — a domain error returned as a value is never flagged as a
tool-level error. -/
theorem claim_C9 (c : Collab) (u : PyValue) (d p rawArgs : PyDict) (v : PyValue)
    (hjs : d.find? "jsonrpc" = some (.str "2.0"))
    (hm : d.find? "method" = some (.str "tools/call"))
    (hp : d.find? "params" = some (.dict p))
    (harg : (p.find? "arguments").getD (.dict .nil) = .dict rawArgs)
    (hlt : rawArgs.find? "library_type" = some v)
    (hv1 : pyEq v (.str "calibre") = false)
    (hv2 : pyEq v (.str "anx") = false) :
    (p.find? "name" = some (.str "get_recent_books") →
      mcp_router c u (some (.dict d)) =
        ⟨200, some (jok ((d.find? "id").getD .none) (.dict (PyDict.ofList
          [("content", .list (PyList.ofList [.dict (PyDict.ofList
            [("type", .str "text"), ("text", .str (dumps invalidLibraryDict))])])),
           ("isError", .bool false)])))⟩) ∧
    (∀ w, p.find? "name" = some (.str "get_book_details") →
      rawArgs.find? "book_id" = some w →
      mcp_router c u (some (.dict d)) =
        ⟨200, some (jok ((d.find? "id").getD .none) (.dict (PyDict.ofList
          [("content", .list (PyList.ofList [.dict (PyDict.ofList
            [("type", .str "text"), ("text", .str (dumps invalidLibraryDict))])])),
           ("isError", .bool false)])))⟩) := by
  have hmem : pyContains (.dict d) (.str "jsonrpc") = .ok true := by
    simp [pyContains, pyHashable, dictContains_of_find d _ _ hjs]
  constructor
  · intro hname
    have heq : filterArgs [("library_type", PTag.pstr), ("limit", PTag.pint)] rawArgs =
        rawArgs.keep (fun k => (["library_type", "limit"] : List String).contains k) := rfl
    have hfind : (filterArgs [("library_type", PTag.pstr), ("limit", PTag.pint)]
        rawArgs).find? "library_type" = some v := by
      rw [heq, find?_keep rawArgs _ "library_type" (by decide), hlt]
    have hchk : checkRequired "get_recent_books" ["library_type"]
        (filterArgs [("library_type", PTag.pstr), ("limit", PTag.pint)] rawArgs) = .ok () := by
      simp [checkRequired, missingNames, hfind]
    have hbody : ∀ lim, get_recent_books c u v lim = .ok invalidLibraryDict := by
      intro lim
      simp [get_recent_books, hv1, hv2]
    have hfn : fn_get_recent_books c u
        (filterArgs [("library_type", PTag.pstr), ("limit", PTag.pint)] rawArgs) =
        .ok invalidLibraryDict := by
      simp [fn_get_recent_books, hchk, hfind, hbody]
    obtain ⟨desc, hlk⟩ : ∃ desc, lookupTool c u "get_recent_books" =
        some ⟨fn_get_recent_books c u,
          [("library_type", PTag.pstr), ("limit", PTag.pint)], desc⟩ := ⟨_, rfl⟩
    have htr : pyTruthy (.str "get_recent_books") = true := rfl
    simp [mcp_router, getJson, routerCore, handleToolsCall,
      pyTruthy_dict_find d _ _ hjs, hmem, pyGetItem, hjs, pyDotGetD, hm, hp, hname,
      harg, pyEq_str, pyEq, htr, tc_str, hlk, toolsGetItem, pyDotItems,
      toolCallRespond, hfn]
  · intro w hname hbid
    have heq : filterArgs [("library_type", PTag.pstr), ("book_id", PTag.pint)] rawArgs =
        rawArgs.keep (fun k => (["library_type", "book_id"] : List String).contains k) := rfl
    have hfind : (filterArgs [("library_type", PTag.pstr), ("book_id", PTag.pint)]
        rawArgs).find? "library_type" = some v := by
      rw [heq, find?_keep rawArgs _ "library_type" (by decide), hlt]
    have hfindB : (filterArgs [("library_type", PTag.pstr), ("book_id", PTag.pint)]
        rawArgs).find? "book_id" = some w := by
      rw [heq, find?_keep rawArgs _ "book_id" (by decide), hbid]
    have hchk : checkRequired "get_book_details" ["library_type", "book_id"]
        (filterArgs [("library_type", PTag.pstr), ("book_id", PTag.pint)] rawArgs) = .ok () := by
      simp [checkRequired, missingNames, hfind, hfindB]
    have hbody : ∀ bid, get_book_details c u v bid = .ok invalidLibraryDict := by
      intro bid
      simp [get_book_details, hv1, hv2]
    have hfn : fn_get_book_details c u
        (filterArgs [("library_type", PTag.pstr), ("book_id", PTag.pint)] rawArgs) =
        .ok invalidLibraryDict := by
      simp [fn_get_book_details, hchk, hfind, hbody]
    obtain ⟨desc, hlk⟩ : ∃ desc, lookupTool c u "get_book_details" =
        some ⟨fn_get_book_details c u,
          [("library_type", PTag.pstr), ("book_id", PTag.pint)], desc⟩ := ⟨_, rfl⟩
    have htr : pyTruthy (.str "get_book_details") = true := rfl
    simp [mcp_router, getJson, routerCore, handleToolsCall,
      pyTruthy_dict_find d _ _ hjs, hmem, pyGetItem, hjs, pyDotGetD, hm, hp, hname,
      harg, pyEq_str, pyEq, htr, tc_str, hlk, toolsGetItem, pyDotItems,
      toolCallRespond, hfn]

def rawC9 : PyDict := .cons "library_type" (.str "zzz") .nil

def pC9 : PyDict := PyDict.ofList
  [("name", .str "get_recent_books"), ("arguments", .dict rawC9)]

def dC9 : PyDict := PyDict.ofList
  [("jsonrpc", .str "2.0"), ("id", .int 6), ("method", .str "tools/call"),
   ("params", .dict pC9)]

theorem claim_C9_witness :
    mcp_router trivialCollab aliceRow (some (.dict dC9)) =
      ⟨200, some (jok ((dC9.find? "id").getD .none) (.dict (PyDict.ofList
        [("content", .list (PyList.ofList [.dict (PyDict.ofList
          [("type", .str "text"), ("text", .str (dumps invalidLibraryDict))])])),
         ("isError", .bool false)])))⟩ :=
  (claim_C9 trivialCollab aliceRow dC9 pC9 rawC9 (.str "zzz")
    rfl rfl rfl rfl rfl rfl rfl).1 rfl

set_option maxHeartbeats 2000000 in
/-- C10: under a valid `jsonrpc:"2.0"` envelope carrying no `id`, every
recognized method other than `notifications/initialized` — `initialize`,
`ping`, `tools/list`, `resources/templates/list`, `resources/list`,
`prompts/list` and `tools/call` (whatever its params and outcome) — still
returns a full JSON-RPC response envelope whose `id` member is null; and
the literal method name `notifications/initialized`, with or without an
`id`, selects the no-body 204 response. -/
theorem claim_C10 (c : Collab) (u : PyValue) (d : PyDict)
    (hjs : d.find? "jsonrpc" = some (.str "2.0")) :
    (d.find? "id" = Option.none →
      ∀ m, d.find? "method" = some (.str m) →
        m ∈ ["initialize", "ping", "tools/list", "resources/templates/list",
             "resources/list", "prompts/list", "tools/call"] →
        respEnvNullId (mcp_router c u (some (.dict d))) = true) ∧
    (d.find? "method" = some (.str "notifications/initialized") →
      mcp_router c u (some (.dict d)) = ⟨204, Option.none⟩) := by
  have hmem : pyContains (.dict d) (.str "jsonrpc") = .ok true := by
    simp [pyContains, pyHashable, dictContains_of_find d _ _ hjs]
  constructor
  · intro hid m hm hmmem
    simp only [List.mem_cons, List.not_mem_nil, or_false] at hmmem
    rcases hmmem with rfl | rfl | rfl | rfl | rfl | rfl | rfl
    · have : mcp_router c u (some (.dict d)) = ⟨200, some (jok .none initializeResult)⟩ := by
        simp [mcp_router, getJson, routerCore, pyTruthy_dict_find d _ _ hjs, hmem,
          pyGetItem, hjs, pyDotGetD, hm, hid, pyEq_str, pyEq]
      rw [this]
      exact respEnvNullId_jok _ _
    · have : mcp_router c u (some (.dict d)) = ⟨200, some (jok .none (.dict .nil))⟩ := by
        simp [mcp_router, getJson, routerCore, pyTruthy_dict_find d _ _ hjs, hmem,
          pyGetItem, hjs, pyDotGetD, hm, hid, pyEq_str, pyEq]
      rw [this]
      exact respEnvNullId_jok _ _
    · have : mcp_router c u (some (.dict d)) =
          ⟨200, some (jok .none (.dict (.cons "tools" (toolsListValue c u) .nil)))⟩ := by
        simp [mcp_router, getJson, routerCore, pyTruthy_dict_find d _ _ hjs, hmem,
          pyGetItem, hjs, pyDotGetD, hm, hid, pyEq_str, pyEq]
      rw [this]
      exact respEnvNullId_jok _ _
    · have : mcp_router c u (some (.dict d)) =
          ⟨200, some (jok .none (.dict (.cons "resourceTemplates" (.list .nil) .nil)))⟩ := by
        simp [mcp_router, getJson, routerCore, pyTruthy_dict_find d _ _ hjs, hmem,
          pyGetItem, hjs, pyDotGetD, hm, hid, pyEq_str, pyEq]
      rw [this]
      exact respEnvNullId_jok _ _
    · have : mcp_router c u (some (.dict d)) =
          ⟨200, some (jok .none (.dict (.cons "resources" (.list .nil) .nil)))⟩ := by
        simp [mcp_router, getJson, routerCore, pyTruthy_dict_find d _ _ hjs, hmem,
          pyGetItem, hjs, pyDotGetD, hm, hid, pyEq_str, pyEq]
      rw [this]
      exact respEnvNullId_jok _ _
    · have : mcp_router c u (some (.dict d)) =
          ⟨200, some (jok .none (.dict (.cons "prompts" (.list .nil) .nil)))⟩ := by
        simp [mcp_router, getJson, routerCore, pyTruthy_dict_find d _ _ hjs, hmem,
          pyGetItem, hjs, pyDotGetD, hm, hid, pyEq_str, pyEq]
      rw [this]
      exact respEnvNullId_jok _ _
    · rcases handleToolsCall_envelope c u ((d.find? "params").getD (.dict .nil)) with
        ⟨r, hr, hrenv⟩ | ⟨e, he⟩
      · have : mcp_router c u (some (.dict d)) = r := by
          simp [mcp_router, getJson, routerCore, pyTruthy_dict_find d _ _ hjs, hmem,
            pyGetItem, hjs, pyDotGetD, hm, hid, pyEq_str, pyEq, hr]
        rw [this]
        exact hrenv
      · have : mcp_router c u (some (.dict d)) =
            ⟨500, some (jerr (-32603) ("Internal error: " ++ e.msg) .none)⟩ := by
          simp [mcp_router, getJson, routerCore, pyTruthy_dict_find d _ _ hjs, hmem,
            pyGetItem, hjs, pyDotGetD, hm, hid, pyEq_str, pyEq, he]
        rw [this]
        exact respEnvNullId_jerr _ _ _
  · intro hm
    simp [mcp_router, getJson, routerCore, pyTruthy_dict_find d _ _ hjs, hmem,
      pyGetItem, hjs, pyDotGetD, hm, pyEq_str, pyEq]

def dC10a : PyDict := PyDict.ofList
  [("jsonrpc", .str "2.0"), ("method", .str "tools/call")]

def dC10b : PyDict := PyDict.ofList
  [("jsonrpc", .str "2.0"), ("id", .int 8), ("method", .str "notifications/initialized")]

theorem claim_C10_witness :
    respEnvNullId (mcp_router trivialCollab aliceRow (some (.dict dC10a))) = true ∧
    mcp_router trivialCollab aliceRow (some (.dict dC10b)) = ⟨204, Option.none⟩ :=
  ⟨(claim_C10 trivialCollab aliceRow dC10a rfl).1 rfl "tools/call" rfl (by decide),
   (claim_C10 trivialCollab aliceRow dC10b rfl).2 rfl⟩

end ACM
